import Mathlib

/-!
# Verification development for `pawn.cpp`

A shallow embedding of the mesh generators (`Sphere`, `StandingCylinder`), the
per-vertex colour pass, the rotation behaviour, the `Composition` driver and
the shader source splitter (`parseShader`) of `src/pawn.cpp`, together with
the properties established about them.

Conventions of the embedding.

* `float` is an abstract scalar type `α` carrying the arithmetic that the source
  uses (`+ - * /`, unary minus, conversions from `int` / `unsigned`, decimal
  literals) and the `<cmath>` functions collected in `FloatMath`.  Statements
  "over exact real arithmetic" instantiate `α` with `ℝ`; the term algebra
  `FExpr` is an executable instance.
* `std::vector<float>` is `List α`; `push_back` appends at the end.
* `unsigned int` arguments are natural numbers.  A loop
  `for (int i = 0; i < n; ++i)` with `n` unsigned compares after converting
  `i` to unsigned, so the body runs for the counter values `0, …, n - 1`; the
  value of the counter read as an `int` is `toInt32 i`.
* `static_cast<int>` of a `size_t` is `toInt32`.
* An index expression such as `i * 3 + 2` has its mathematical value; reading
  a vector outside its bounds (undefined in the source) yields `0`.
* A `Composition` owns its entities (`add` takes ownership, the destructor
  deletes each pointer once), so the objects behind its `Object3D*` entries
  are kept in place in the list of figures.
* The file read by `parseShader` is the list of lines `getline` yields;
  `std::string` is `String`.
* OpenGL is an external collaborator: the context is a record holding the
  trace of calls issued so far and the few facts the program reads back.
-/

set_option autoImplicit false

namespace Pawn

/-! ## Scalars -/

/-- The `<cmath>` functions the program calls (`acos`, `cosf`, `sinf`) and the
square root that `glm::length` / `glm::normalize` are built on. -/
class FloatMath (α : Type) where
  acos : α → α
  cosf : α → α
  sinf : α → α
  sqrt : α → α

export FloatMath (acos cosf sinf sqrt)

/-- Conversion of an unsigned 64-bit / arbitrary non-negative value to a 32-bit
`int` (`static_cast<int>`): reduction modulo `2^32` read in two's complement. -/
def toInt32 (n : Nat) : Int :=
  if n % 2 ^ 32 < 2 ^ 31 then ((n % 2 ^ 32 : Nat) : Int) else ((n % 2 ^ 32 : Nat) : Int) - 2 ^ 32

/-- Conversion of a `GLint` result to `unsigned int` (as in
`unsigned int posloc = glGetAttribLocation(...)`). -/
def toUInt32 (z : Int) : Nat := (z % 2 ^ 32).toNat

/-- Symbolic scalars: the free term algebra over the operations of the source.
An executable instance of the scalar interface in which every float expression
of the program evaluates to the expression itself. -/
inductive FExpr where
  | zero : FExpr
  | one : FExpr
  | nat (n : Nat) : FExpr
  | int (z : Int) : FExpr
  | sci (mantissa : Nat) (sign : Bool) (exponent : Nat) : FExpr
  | add (a b : FExpr) : FExpr
  | sub (a b : FExpr) : FExpr
  | mul (a b : FExpr) : FExpr
  | div (a b : FExpr) : FExpr
  | neg (a : FExpr) : FExpr
  | acos (a : FExpr) : FExpr
  | cosf (a : FExpr) : FExpr
  | sinf (a : FExpr) : FExpr
  | sqrt (a : FExpr) : FExpr
  deriving DecidableEq

instance : Zero FExpr := ⟨FExpr.zero⟩
instance : One FExpr := ⟨FExpr.one⟩
instance : Add FExpr := ⟨FExpr.add⟩
instance : Sub FExpr := ⟨FExpr.sub⟩
instance : Mul FExpr := ⟨FExpr.mul⟩
instance : Div FExpr := ⟨FExpr.div⟩
instance : Neg FExpr := ⟨FExpr.neg⟩
instance : NatCast FExpr := ⟨FExpr.nat⟩
instance : IntCast FExpr := ⟨FExpr.int⟩
instance : OfScientific FExpr := ⟨FExpr.sci⟩
instance : FloatMath FExpr := ⟨FExpr.acos, FExpr.cosf, FExpr.sinf, FExpr.sqrt⟩

/-- Exact real arithmetic as a scalar instance. -/
noncomputable instance : FloatMath ℝ := ⟨Real.arccos, Real.cos, Real.sin, Real.sqrt⟩

section Model

variable {α : Type} [Zero α] [One α] [Add α] [Sub α] [Mul α] [Div α] [Neg α]
  [NatCast α] [IntCast α] [OfScientific α] [FloatMath α] [DecidableEq α]

/-- The sentinel `#define NULL_FLOAT_VECTOR std::vector <float>({ -2598445.9842f })`. -/
def NULL_FLOAT_VECTOR : List α := [-(2598445.9842 : α)]

/-- The constant `const float PI = acos(-1);`. -/
def PI : α := acos (((-1 : Int) : α))

/-! ## Vectors and matrices (`glm`) -/

/-- A `glm::vec3`. -/
structure Vec3 (α : Type) where
  x : α
  y : α
  z : α
  deriving DecidableEq

/-- A `glm::vec4`. -/
structure Vec4 (α : Type) where
  x : α
  y : α
  z : α
  w : α
  deriving DecidableEq

/-- A `glm::mat4`: four columns (`m[0] … m[3]`), column-major as in glm. -/
structure Mat4 (α : Type) where
  c0 : Vec4 α
  c1 : Vec4 α
  c2 : Vec4 α
  c3 : Vec4 α
  deriving DecidableEq

/-- The call `glm::vec3(s)`: all three components equal to `s`. -/
def Vec3.splat (s : α) : Vec3 α := ⟨s, s, s⟩

/-- Modelled from the spec: `glm::length` (glm is not under src/), the
Euclidean length `sqrt(x*x + y*y + z*z)` of a vector. -/
def Vec3.length (v : Vec3 α) : α := sqrt (v.x * v.x + v.y * v.y + v.z * v.z)

/-- The call `glm::mat4(1)`: the identity matrix. -/
def Mat4.identity : Mat4 α :=
  ⟨⟨1, 0, 0, 0⟩, ⟨0, 1, 0, 0⟩, ⟨0, 0, 1, 0⟩, ⟨0, 0, 0, 1⟩⟩

/-! ## The OpenGL context -/

/-- The value of the GL enumerant `GL_TRIANGLES`. -/
def GL_TRIANGLES : Nat := 4

/-- The OpenGL calls the shapes and the rotation behaviour issue, with the
arguments that matter to the properties below.  `count` of `DrawArrays` is
the value the call receives: the parameter is `GLsizei count`, a 32-bit `int`,
so a `size_t` argument is narrowed to it. -/
inductive GLCall (α : Type) where
  | DeleteBuffers (name : Nat) : GLCall α
  | GenBuffers (name : Nat) : GLCall α
  | BindBuffer (name : Nat) : GLCall α
  | BufferData (data : List α) : GLCall α
  | VertexAttribPointer (index : Nat) (size : Nat) : GLCall α
  | EnableVertexAttribArray (index : Nat) : GLCall α
  | DisableVertexAttribArray (index : Nat) : GLCall α
  | DrawArrays (mode : Nat) (first : Nat) (count : Int) : GLCall α
  | UniformMatrix4fv (location : Nat) (value : Mat4 α) : GLCall α
  | UseProgram (program : Nat) : GLCall α

/-- Modelled from the spec: the OpenGL context (an external collaborator, not
under src/).  `calls` is the trace of calls issued so far, oldest first;
`generated` counts the buffer names handed out, so that `glGenBuffers` returns
a fresh non-zero name ("a buffer identifier of zero/unset means not yet
uploaded"); the two location tables answer `glGetAttribLocation` and
`glGetUniformLocation`. -/
structure GLContext (α : Type) where
  calls : List (GLCall α) := []
  generated : Nat := 0
  attribLocation : Nat → String → Int := fun _ _ => -1
  uniformLocation : Nat → String → Int := fun _ _ => -1

/-- Record one call in the trace. -/
def GLContext.issue (gl : GLContext α) (c : GLCall α) : GLContext α := { gl with calls := gl.calls ++ [c] }

/-- The call `glGenBuffers(1, &name)`: hands out the next unused non-zero name. -/
def GLContext.genBuffer (gl : GLContext α) : Nat × GLContext α :=
  (gl.generated + 1,
   { gl with generated := gl.generated + 1,
             calls := gl.calls ++ [GLCall.GenBuffers (gl.generated + 1)] })

/-! ## `class Object3D` -/

/-- The data members of `Object3D`. -/
structure Object3D (α : Type) where
  positions : List α := []
  colors : List α := []
  normals : List α := []
  vbo : Nat := 0
  cbo : Nat := 0
  nbo : Nat := 0

namespace Object3D

def get_positions (o : Object3D α) : List α := o.positions
def get_colors (o : Object3D α) : List α := o.colors
def get_normals (o : Object3D α) : List α := o.normals
def get_vbo (o : Object3D α) : Nat := o.vbo
def get_cbo (o : Object3D α) : Nat := o.cbo
def get_nbo (o : Object3D α) : Nat := o.nbo

def push_to_positions (o : Object3D α) (position : α) : Object3D α :=
  { o with positions := o.positions ++ [position] }

def push_to_colors (o : Object3D α) (color : α) : Object3D α :=
  { o with colors := o.colors ++ [color] }

def push_to_normals (o : Object3D α) (normal : α) : Object3D α :=
  { o with normals := o.normals ++ [normal] }

def is_vbo_init (o : Object3D α) : Bool := o.vbo != 0
def is_cbo_init (o : Object3D α) : Bool := o.cbo != 0
def is_nbo_init (o : Object3D α) : Bool := o.nbo != 0

/-- The overload `void init_vbo()`. -/
def init_vbo (o : Object3D α) (gl : GLContext α) : Object3D α × GLContext α :=
  let gl1 := gl.issue (GLCall.DeleteBuffers o.vbo)
  let (name, gl2) := gl1.genBuffer
  let o1 := { o with vbo := name }
  let gl3 := gl2.issue (GLCall.BindBuffer o1.vbo)
  let gl4 := gl3.issue (GLCall.BufferData o1.positions)
  (o1, gl4.issue (GLCall.BindBuffer 0))

/-- The overload `void init_cbo()`. -/
def init_cbo (o : Object3D α) (gl : GLContext α) : Object3D α × GLContext α :=
  let gl1 := gl.issue (GLCall.DeleteBuffers o.cbo)
  let (name, gl2) := gl1.genBuffer
  let o1 := { o with cbo := name }
  let gl3 := gl2.issue (GLCall.BindBuffer o1.cbo)
  let gl4 := gl3.issue (GLCall.BufferData o1.colors)
  (o1, gl4.issue (GLCall.BindBuffer 0))

/-- The overload `void init_nbo(std::vector <float> normals)`. -/
def init_nbo_from (o : Object3D α) (normals : List α) (gl : GLContext α) : Object3D α × GLContext α :=
  let gl1 := gl.issue (GLCall.DeleteBuffers o.nbo)
  let o1 := { o with normals := normals }
  let (name, gl2) := gl1.genBuffer
  let o2 := { o1 with nbo := name }
  let gl3 := gl2.issue (GLCall.BindBuffer o2.nbo)
  let gl4 := gl3.issue (GLCall.BufferData normals)
  (o2, gl4.issue (GLCall.BindBuffer 0))

end Object3D

/-! ## `class Rotatable` -/

/-- The data members of `Rotatable`. -/
structure Rotatable (α : Type) where
  transform : Mat4 α
  pivot : Vec3 α
  matloc : Nat := 0

/-- The constructor `Rotatable(glm::vec3 pivot)`: the given pivot, identity
transform. -/
def Rotatable.of_pivot (pivot : Vec3 α) : Rotatable α :=
  { transform := Mat4.identity, pivot := pivot }

/-- The default constructor `Rotatable()`: pivot `(0.3f, 0.3f, 0.3f)`, identity
transform. -/
def Rotatable.default : Rotatable α :=
  { transform := Mat4.identity, pivot := ⟨(0.3 : α), (0.3 : α), (0.3 : α)⟩ }

/-! ## `class Sphere` -/

/-- The state of a `Sphere`: its `Object3D` and `Rotatable` bases and its own
members. -/
structure Sphere (α : Type) where
  obj : Object3D α
  rot : Rotatable α
  x : α
  y : α
  z : α
  r : α

/-- The body of the inner loop of `Sphere::generate_sphere` for the counter
values `i` and `j`: the six vertices of one quad cell. -/
def Sphere.generate_sphere_body (x y z r : α) (layer_quality density_quality : Nat)
    (i j : Nat) (o : Object3D α) : Object3D α :=
  let two : α := ((2 : Int) : α)
  let fi : α := ((toInt32 i : Int) : α)
  let fi1 : α := ((toInt32 (i + 1) : Int) : α)
  let fj : α := ((toInt32 j : Int) : α)
  let fj1 : α := ((toInt32 (j + 1) : Int) : α)
  let fl : α := ((layer_quality : Nat) : α)
  let fd : α := ((density_quality : Nat) : α)
  let x1 := x + r * cosf (two * PI * fi / fl) * sinf (fj / fd * PI)
  let y1 := y + r * sinf (two * PI * fi / fl) * sinf (fj / fd * PI)
  let z1 := z + r * cosf (fj / fd * PI)
  let o := ((o.push_to_positions x1).push_to_positions y1).push_to_positions z1
  let x2 := x + r * cosf (two * PI * fi1 / fl) * sinf (fj / fd * PI)
  let y2 := y + r * sinf (two * PI * fi1 / fl) * sinf (fj / fd * PI)
  let z2 := z + r * cosf (fj / fd * PI)
  let o := ((o.push_to_positions x2).push_to_positions y2).push_to_positions z2
  let x3 := x + r * cosf (two * PI * fi / fl) * sinf (fj1 / fd * PI)
  let y3 := y + r * sinf (two * PI * fi / fl) * sinf (fj1 / fd * PI)
  let z3 := z + r * cosf (fj1 / fd * PI)
  let o := ((o.push_to_positions x3).push_to_positions y3).push_to_positions z3
  let o := ((o.push_to_positions x1).push_to_positions y1).push_to_positions z1
  let o := ((o.push_to_positions x2).push_to_positions y2).push_to_positions z2
  let x4 := x + r * cosf (two * PI * fi1 / fl) * sinf (fj1 / fd * PI)
  let y4 := y + r * sinf (two * PI * fi1 / fl) * sinf (fj1 / fd * PI)
  let z4 := z + r * cosf (fj1 / fd * PI)
  ((o.push_to_positions x4).push_to_positions y4).push_to_positions z4

/-- The method `Sphere::generate_sphere`. -/
def Sphere.generate_sphere (s : Sphere α) (x y z r : α) (layer_quality density_quality : Nat)
    (gl : GLContext α) : Sphere α × GLContext α :=
  let o := (List.range layer_quality).foldl
    (fun o i => (List.range density_quality).foldl
      (fun o j => Sphere.generate_sphere_body x y z r layer_quality density_quality i j o) o)
    s.obj
  let (o1, gl1) := o.init_vbo gl
  ({ s with obj := o1 }, gl1)

/-- The gradient factor of the vertex with index `i` in `positions`
(the initialiser of `gradientFactor` in `apply_colors` / `apply_color`). -/
def gradientFactor (positions : List α) (i : Nat) : α :=
  Vec3.length ⟨positions.getD (i * 3) 0, positions.getD (i * 3 + 1) 0,
    positions.getD (i * 3 + 2) 0⟩ / Vec3.length (Vec3.splat (1.0 : α))

/-- The body of the loop of `Sphere::apply_colors` for the counter value `i`. -/
def Sphere.apply_colors_body (normalized_rgb : List α) (i : Nat) (o : Object3D α) :
    Object3D α :=
  let g : α := gradientFactor o.get_positions i
  let r := normalized_rgb.getD 0 0 * ((1.0 : α) - g)
  let g1 := normalized_rgb.getD 1 0 * ((1.0 : α) - g)
  let b := normalized_rgb.getD 2 0 * ((1.0 : α) - g)
  ((o.push_to_colors r).push_to_colors g1).push_to_colors b

/-- The method `Sphere::apply_colors`.  `num_vertices` is an `int`; the loop
`for (int i = 0; i < num_vertices; ++i)` runs `num_vertices` times when that
is positive and not at all otherwise. -/
def Sphere.apply_colors (s : Sphere α) (normalized_rgb : List α)
    (layer_quality density_quality : Nat) (gl : GLContext α) : Sphere α × GLContext α :=
  let _ := layer_quality
  let _ := density_quality
  let num_vertices : Int := toInt32 (s.obj.get_positions.length / 3)
  let o := (List.range num_vertices.toNat).foldl
    (fun o i => Sphere.apply_colors_body normalized_rgb i o) s.obj
  let (o1, gl1) := o.init_cbo gl
  ({ s with obj := o1 }, gl1)

/-- The constructor `Sphere::Sphere`, run in the OpenGL context `gl`. -/
def Sphere.new (x y z r : α) (layer_quality density_quality : Nat)
    (normalized_rgb normals : List α) (gl : GLContext α) : Sphere α × GLContext α :=
  let s0 : Sphere α := { obj := {}, rot := Rotatable.default, x := x, y := y, z := z, r := r }
  let (s1, gl1) := s0.generate_sphere s0.x s0.y s0.z s0.r layer_quality density_quality gl
  let (s2, gl2) :=
    if normalized_rgb ≠ NULL_FLOAT_VECTOR then
      s1.apply_colors normalized_rgb layer_quality density_quality gl1
    else (s1, gl1)
  if normals ≠ NULL_FLOAT_VECTOR then
    let (o3, gl3) := s2.obj.init_nbo_from normals gl2
    ({ s2 with obj := o3 }, gl3)
  else (s2, gl2)

/-! ## `class StandingCylinder` -/

/-- The state of a `StandingCylinder`: its two bases and its own members. -/
structure StandingCylinder (α : Type) where
  obj : Object3D α
  rot : Rotatable α
  bottom_x : α
  bottom_y : α
  bottom_z : α
  r : α
  h : α

/-- The body of the loop of `StandingCylinder::apply_color` for the counter
value `i`. -/
def StandingCylinder.apply_color_body (normalized_rgb : List α) (i : Nat) (o : Object3D α) :
    Object3D α :=
  let g : α := gradientFactor o.get_positions i
  let r := normalized_rgb.getD 0 0 * ((1.0 : α) - g)
  let g1 := normalized_rgb.getD 1 0 * ((1.0 : α) - g)
  let b := normalized_rgb.getD 2 0 * ((1.0 : α) - g)
  ((o.push_to_colors r).push_to_colors g1).push_to_colors b

/-- The method `StandingCylinder::apply_color`. -/
def StandingCylinder.apply_color (s : StandingCylinder α) (normalized_rgb : List α)
    (circle_quality side_quality : Nat) (gl : GLContext α) :
    StandingCylinder α × GLContext α :=
  let _ := circle_quality
  let _ := side_quality
  let num_vertices : Int := toInt32 (s.obj.get_positions.length / 3)
  let o := (List.range num_vertices.toNat).foldl
    (fun o i => StandingCylinder.apply_color_body normalized_rgb i o) s.obj
  let (o1, gl1) := o.init_cbo gl
  ({ s with obj := o1 }, gl1)

/-- The body of the first loop of `generate_cylinder` (bottom fan) for the
counter value `i`. -/
def StandingCylinder.bottom_fan_body (bx by_ bz r : α) (circle_quality : Nat) (i : Nat)
    (o : Object3D α) : Object3D α :=
  let fi : α := ((toInt32 i : Int) : α)
  let fi1 : α := ((toInt32 (i + 1) : Int) : α)
  let fc : α := ((circle_quality : Nat) : α)
  let x := bx + r * cosf ((2.0 : α) * PI * fi / fc)
  let z := bz + r * sinf ((2.0 : α) * PI * fi / fc)
  let xnext := bx + r * cosf ((2.0 : α) * PI * fi1 / fc)
  let znext := bz + r * sinf ((2.0 : α) * PI * fi1 / fc)
  let o := ((o.push_to_positions x).push_to_positions by_).push_to_positions z
  let o := ((o.push_to_positions xnext).push_to_positions by_).push_to_positions znext
  ((o.push_to_positions bx).push_to_positions by_).push_to_positions bz

/-- The body of the second loop of `generate_cylinder` (top fan) for the
counter value `i`. -/
def StandingCylinder.top_fan_body (bx by_ bz r h : α) (circle_quality : Nat) (i : Nat)
    (o : Object3D α) : Object3D α :=
  let fi : α := ((toInt32 i : Int) : α)
  let fi1 : α := ((toInt32 (i + 1) : Int) : α)
  let fc : α := ((circle_quality : Nat) : α)
  let x := bx + r * cosf ((2.0 : α) * PI * fi / fc)
  let z := bz + r * sinf ((2.0 : α) * PI * fi / fc)
  let xnext := bx + r * cosf ((2.0 : α) * PI * fi1 / fc)
  let znext := bz + r * sinf ((2.0 : α) * PI * fi1 / fc)
  let o := ((o.push_to_positions x).push_to_positions (by_ + h)).push_to_positions z
  let o := ((o.push_to_positions xnext).push_to_positions (by_ + h)).push_to_positions znext
  ((o.push_to_positions bx).push_to_positions (by_ + h)).push_to_positions bz

/-- The body of the third loop of `generate_cylinder` (side wall) for the
counter value `i`. -/
def StandingCylinder.side_body (bx by_ bz r h : α) (side_quality : Nat) (i : Nat)
    (o : Object3D α) : Object3D α :=
  let two : α := ((2 : Int) : α)
  let fi : α := ((toInt32 i : Int) : α)
  let fi1 : α := ((toInt32 (i + 1) : Int) : α)
  let fs : α := ((side_quality : Nat) : α)
  let x := bx + r * cosf (two * PI * fi / fs)
  let z := bz + r * sinf (two * PI * fi / fs)
  let xnext := bx + r * cosf (two * PI * fi1 / fs)
  let znext := bz + r * sinf (two * PI * fi1 / fs)
  let o := ((o.push_to_positions x).push_to_positions by_).push_to_positions z
  let o := ((o.push_to_positions xnext).push_to_positions by_).push_to_positions znext
  let o := ((o.push_to_positions x).push_to_positions (by_ + h)).push_to_positions z
  let o := ((o.push_to_positions xnext).push_to_positions by_).push_to_positions znext
  let o := ((o.push_to_positions xnext).push_to_positions (by_ + h)).push_to_positions znext
  ((o.push_to_positions x).push_to_positions (by_ + h)).push_to_positions z

/-- The method `StandingCylinder::generate_cylinder`: bottom fan, top fan,
side wall, then `init_vbo()`. -/
def StandingCylinder.generate_cylinder (s : StandingCylinder α) (bx by_ bz r h : α)
    (circle_quality side_quality : Nat) (gl : GLContext α) :
    StandingCylinder α × GLContext α :=
  let o := (List.range circle_quality).foldl
    (fun o i => StandingCylinder.bottom_fan_body bx by_ bz r circle_quality i o) s.obj
  let o := (List.range circle_quality).foldl
    (fun o i => StandingCylinder.top_fan_body bx by_ bz r h circle_quality i o) o
  let o := (List.range side_quality).foldl
    (fun o i => StandingCylinder.side_body bx by_ bz r h side_quality i o) o
  let (o1, gl1) := o.init_vbo gl
  ({ s with obj := o1 }, gl1)

/-- The constructor `StandingCylinder::StandingCylinder`, run in the OpenGL
context `gl`. -/
def StandingCylinder.new (x y z r h : α) (circle_quality side_quality : Nat)
    (normalized_rgb normals : List α) (gl : GLContext α) :
    StandingCylinder α × GLContext α :=
  let s0 : StandingCylinder α :=
    { obj := {}, rot := Rotatable.default, bottom_x := x, bottom_y := y, bottom_z := z,
      r := r, h := h }
  let (s1, gl1) := s0.generate_cylinder x y z r h circle_quality side_quality gl
  let (s2, gl2) :=
    if normalized_rgb ≠ NULL_FLOAT_VECTOR then
      s1.apply_color normalized_rgb circle_quality side_quality gl1
    else (s1, gl1)
  if normals ≠ NULL_FLOAT_VECTOR then
    let (o3, gl3) := s2.obj.init_nbo_from normals gl2
    ({ s2 with obj := o3 }, gl3)
  else (s2, gl2)

/-! ## Rotation (`glm::rotate`, `Rotatable`) -/

/-- The product `v * s` of a `glm::vec4` with a scalar. -/
def Vec4.scale (v : Vec4 α) (s : α) : Vec4 α := ⟨v.x * s, v.y * s, v.z * s, v.w * s⟩

/-- The sum of two `glm::vec4`. -/
def Vec4.add (u v : Vec4 α) : Vec4 α := ⟨u.x + v.x, u.y + v.y, u.z + v.z, u.w + v.w⟩

/-- Modelled from the spec: `glm::normalize` (glm is not under src/), the
vector `v / |v|`, computed by glm as `v * inversesqrt(dot(v, v))`. -/
def Vec3.normalize (v : Vec3 α) : Vec3 α :=
  let k : α := 1 / sqrt (v.x * v.x + v.y * v.y + v.z * v.z)
  ⟨v.x * k, v.y * k, v.z * k⟩

/-- Modelled from the spec: `glm::rotate(m, angle, v)` (glm is not under
src/), the product `m * R(angle, v / |v|)` of `m` with the matrix of the
rotation by `angle` about the normalised axis; written out the way glm
computes it, column by column. -/
def glm_rotate (m : Mat4 α) (angle : α) (v : Vec3 α) : Mat4 α :=
  let c : α := cosf angle
  let s : α := sinf angle
  let axis : Vec3 α := v.normalize
  let temp : Vec3 α := ⟨(1 - c) * axis.x, (1 - c) * axis.y, (1 - c) * axis.z⟩
  let r00 := c + temp.x * axis.x
  let r01 := temp.x * axis.y + s * axis.z
  let r02 := temp.x * axis.z - s * axis.y
  let r10 := temp.y * axis.x - s * axis.z
  let r11 := c + temp.y * axis.y
  let r12 := temp.y * axis.z + s * axis.x
  let r20 := temp.z * axis.x + s * axis.y
  let r21 := temp.z * axis.y - s * axis.x
  let r22 := c + temp.z * axis.z
  { c0 := ((m.c0.scale r00).add (m.c1.scale r01)).add (m.c2.scale r02)
    c1 := ((m.c0.scale r10).add (m.c1.scale r11)).add (m.c2.scale r12)
    c2 := ((m.c0.scale r20).add (m.c1.scale r21)).add (m.c2.scale r22)
    c3 := m.c3 }

namespace Rotatable

def get_transform (q : Rotatable α) : Mat4 α := q.transform
def get_pivot (q : Rotatable α) : Vec3 α := q.pivot
def set_pivot (q : Rotatable α) (pivot : Vec3 α) : Rotatable α := { q with pivot := pivot }

/-- The method `Rotatable::init_rotation`. -/
def init_rotation (q : Rotatable α) (shader : Nat) (gl : GLContext α) :
    Rotatable α × GLContext α :=
  let q1 := { q with matloc := toUInt32 (gl.uniformLocation shader "transform") }
  let gl1 := gl.issue (GLCall.UniformMatrix4fv q1.matloc q1.transform)
  (q1, gl1.issue (GLCall.UseProgram shader))

/-- The method `Rotatable::apply_rotation`. -/
def apply_rotation (q : Rotatable α) (shader : Nat) (gl : GLContext α) :
    Rotatable α × GLContext α :=
  let q1 := { q with transform := glm_rotate q.transform (0.001 : α) q.pivot }
  let gl1 := gl.issue (GLCall.UniformMatrix4fv q1.matloc q1.transform)
  (q1, gl1.issue (GLCall.UseProgram shader))

/-- The effect of `n` successive calls of `apply_rotation` (one per frame of the
main loop). -/
def apply_rotation_times (shader : Nat) :
    Nat → Rotatable α → GLContext α → Rotatable α × GLContext α
  | 0, q, gl => (q, gl)
  | n + 1, q, gl =>
    let (q1, gl1) := apply_rotation_times shader n q gl
    q1.apply_rotation shader gl1

end Rotatable

/-! ## Drawing -/

/-- The method `Sphere::draw_shape`. -/
def Sphere.draw_shape (s : Sphere α) (shader_source : Nat) (gl : GLContext α) : GLContext α :=
  let posloc := toUInt32 (gl.attribLocation shader_source "inPosition")
  let gl := gl.issue (GLCall.BindBuffer s.obj.get_vbo)
  let gl := gl.issue (GLCall.VertexAttribPointer posloc 3)
  let gl := gl.issue (GLCall.EnableVertexAttribArray posloc)
  let colorloc := toUInt32 (gl.attribLocation shader_source "inColor")
  let gl := gl.issue (GLCall.BindBuffer s.obj.get_cbo)
  let gl := gl.issue (GLCall.VertexAttribPointer colorloc 3)
  let gl := gl.issue (GLCall.EnableVertexAttribArray colorloc)
  let normloc := toUInt32 (gl.attribLocation shader_source "inNormal")
  let gl := gl.issue (GLCall.BindBuffer s.obj.get_nbo)
  let gl := gl.issue (GLCall.VertexAttribPointer normloc 3)
  let gl := gl.issue (GLCall.EnableVertexAttribArray normloc)
  let gl := gl.issue
    (GLCall.DrawArrays GL_TRIANGLES 0 (toInt32 (s.obj.get_positions.length / 3)))
  let gl := gl.issue (GLCall.DisableVertexAttribArray posloc)
  let gl := gl.issue (GLCall.DisableVertexAttribArray colorloc)
  gl.issue (GLCall.DisableVertexAttribArray normloc)

/-- The method `StandingCylinder::draw_shape`. -/
def StandingCylinder.draw_shape (s : StandingCylinder α) (shader_source : Nat)
    (gl : GLContext α) : GLContext α :=
  let posloc := toUInt32 (gl.attribLocation shader_source "inPosition")
  let gl := gl.issue (GLCall.BindBuffer s.obj.get_vbo)
  let gl := gl.issue (GLCall.VertexAttribPointer posloc 3)
  let gl := gl.issue (GLCall.EnableVertexAttribArray posloc)
  let colorloc := toUInt32 (gl.attribLocation shader_source "inColor")
  let gl := gl.issue (GLCall.BindBuffer s.obj.get_cbo)
  let gl := gl.issue (GLCall.VertexAttribPointer colorloc 3)
  let gl := gl.issue (GLCall.EnableVertexAttribArray colorloc)
  let normloc := toUInt32 (gl.attribLocation shader_source "inNormal")
  let gl := gl.issue (GLCall.BindBuffer s.obj.get_nbo)
  let gl := gl.issue (GLCall.VertexAttribPointer normloc 3)
  let gl := gl.issue (GLCall.EnableVertexAttribArray normloc)
  let gl := gl.issue
    (GLCall.DrawArrays GL_TRIANGLES 0 (toInt32 (s.obj.get_positions.length / 3)))
  let gl := gl.issue (GLCall.DisableVertexAttribArray posloc)
  let gl := gl.issue (GLCall.DisableVertexAttribArray colorloc)
  gl.issue (GLCall.DisableVertexAttribArray normloc)

/-! ## `class Composition` -/

/-- What an `Object3D*` held by a composition points to: a `Sphere`, a
`StandingCylinder`, or an object of some other class derived from `Object3D`
that does not derive from `Rotatable` (carried with its own override of the
pure virtual `draw_shape`).  The composition owns its entities exclusively
(`add` takes ownership, the destructor deletes each pointer once), so the
pointers are pairwise distinct and the pointed-to objects are kept in place in
the list. -/
inductive Figure (α : Type) where
  | sphere (s : Sphere α) : Figure α
  | cylinder (c : StandingCylinder α) : Figure α
  | other (o : Object3D α) (draw : Object3D α → Nat → GLContext α → GLContext α) : Figure α

namespace Figure

/-- The `Object3D` base of an entity. -/
def obj : Figure α → Object3D α
  | sphere s => s.obj
  | cylinder c => c.obj
  | other o _ => o

/-- The result of `dynamic_cast <Rotatable*>(i)`: the `Rotatable` base when the
entity has one, `none` for the null pointer. -/
def as_rotatable : Figure α → Option (Rotatable α)
  | sphere s => some s.rot
  | cylinder c => some c.rot
  | other _ _ => none

/-- Write back the `Rotatable` base of an entity that has one. -/
def with_rotatable : Figure α → Rotatable α → Figure α
  | sphere s, q => sphere { s with rot := q }
  | cylinder c, q => cylinder { c with rot := q }
  | other o d, _ => other o d

/-- The virtual call `i->draw_shape(shader)`. -/
def draw_shape : Figure α → Nat → GLContext α → GLContext α
  | sphere s, shader, gl => s.draw_shape shader gl
  | cylinder c, shader, gl => c.draw_shape shader gl
  | other o d, shader, gl => d o shader gl

end Figure

/-- The data member of `Composition`: the entities in insertion order. -/
structure Composition (α : Type) where
  figures : List (Figure α) := []

namespace Composition

/-- The method `Composition::add`. -/
def add (c : Composition α) (obj : Figure α) : Composition α :=
  { c with figures := c.figures ++ [obj] }

/-- The loop of `Composition::init_rotation` over the remaining entities. -/
def init_rotation_loop (shader : Nat) :
    List (Figure α) → GLContext α → List (Figure α) × GLContext α
  | [], gl => ([], gl)
  | i :: rest, gl =>
    match i.as_rotatable with
    | some r =>
      let (r1, gl1) := r.init_rotation shader gl
      let (rest1, gl2) := init_rotation_loop shader rest gl1
      (i.with_rotatable r1 :: rest1, gl2)
    | none =>
      let (rest1, gl2) := init_rotation_loop shader rest gl
      (i :: rest1, gl2)

/-- The method `Composition::init_rotation`. -/
def init_rotation (c : Composition α) (shader : Nat) (gl : GLContext α) :
    Composition α × GLContext α :=
  let (fs, gl1) := init_rotation_loop shader c.figures gl
  ({ c with figures := fs }, gl1)

/-- The loop of `Composition::apply_rotation` over the remaining entities. -/
def apply_rotation_loop (shader : Nat) :
    List (Figure α) → GLContext α → List (Figure α) × GLContext α
  | [], gl => ([], gl)
  | i :: rest, gl =>
    match i.as_rotatable with
    | some r =>
      let (r1, gl1) := r.apply_rotation shader gl
      let (rest1, gl2) := apply_rotation_loop shader rest gl1
      (i.with_rotatable r1 :: rest1, gl2)
    | none =>
      let (rest1, gl2) := apply_rotation_loop shader rest gl
      (i :: rest1, gl2)

/-- The method `Composition::apply_rotation`. -/
def apply_rotation (c : Composition α) (shader : Nat) (gl : GLContext α) :
    Composition α × GLContext α :=
  let (fs, gl1) := apply_rotation_loop shader c.figures gl
  ({ c with figures := fs }, gl1)

/-- The method `Composition::draw_composition`. -/
def draw_composition (c : Composition α) (shader : Nat) (gl : GLContext α) : GLContext α :=
  c.figures.foldl (fun gl i => i.draw_shape shader gl) gl

end Composition

/-! ## Auxiliary definitions used in the statements -/

/-- The members other than `positions`, as one tuple. -/
def Object3D.besides_positions (o : Object3D α) : List α × List α × Nat × Nat × Nat :=
  (o.colors, o.normals, o.vbo, o.cbo, o.nbo)

/-- The members other than `colors`, as one tuple. -/
def Object3D.besides_colors (o : Object3D α) : List α × List α × Nat × Nat × Nat :=
  (o.positions, o.normals, o.vbo, o.cbo, o.nbo)

/-- The object left by the two nested loops of `generate_sphere`
into the object `o`. -/
def sphere_loops (x y z r : α) (L D : Nat) (o : Object3D α) : Object3D α :=
  (List.range L).foldl
    (fun o i => (List.range D).foldl
      (fun o j => Sphere.generate_sphere_body x y z r L D i j o) o) o

/-- The colour triple pushed for the vertex with index `i`
(the values `r`, `g`, `b` of the loop body of `apply_colors` / `apply_color`). -/
def gradient_triple (positions normalized_rgb : List α) (i : Nat) : List α :=
  [normalized_rgb.getD 0 0 * ((1.0 : α) - gradientFactor positions i),
   normalized_rgb.getD 1 0 * ((1.0 : α) - gradientFactor positions i),
   normalized_rgb.getD 2 0 * ((1.0 : α) - gradientFactor positions i)]

/-- The colour triples of the vertices `0, …, n - 1`, in order. -/
def gradient_colors (positions normalized_rgb : List α) : Nat → List α
  | 0 => []
  | n + 1 => gradient_colors positions normalized_rgb n
      ++ gradient_triple positions normalized_rgb n

/-- The number of iterations of the colour loop for a position array of
`len` floats: `num_vertices = static_cast<int>(len / 3)` when positive, else 0. -/
def color_count (len : Nat) : Nat := (toInt32 (len / 3)).toNat

/-- The object left by the three loops of `generate_cylinder` run on the
object `o`. -/
def cylinder_loops (bx by_ bz r h : α) (C S : Nat) (o : Object3D α) : Object3D α :=
  (List.range S).foldl
    (fun o i => StandingCylinder.side_body bx by_ bz r h S i o)
    ((List.range C).foldl
      (fun o i => StandingCylinder.top_fan_body bx by_ bz r h C i o)
      ((List.range C).foldl
        (fun o i => StandingCylinder.bottom_fan_body bx by_ bz r C i o) o))

/-- One call of the rotation interface of a composition, with its shader
argument. -/
inductive RotationCall where
  | init_rotation (shader : Nat) : RotationCall
  | apply_rotation (shader : Nat) : RotationCall

/-- The number of `apply_rotation` calls in a sequence of calls. -/
def RotationCall.applications : List RotationCall → Nat
  | [] => 0
  | RotationCall.init_rotation _ :: rest => RotationCall.applications rest
  | RotationCall.apply_rotation _ :: rest => RotationCall.applications rest + 1

/-- A sequence of `Composition::init_rotation` / `Composition::apply_rotation`
calls, performed first to last. -/
def Composition.perform :
    List RotationCall → Composition α → GLContext α → Composition α × GLContext α
  | [], c, gl => (c, gl)
  | RotationCall.init_rotation shader :: rest, c, gl =>
    let (c1, gl1) := c.init_rotation shader gl
    Composition.perform rest c1 gl1
  | RotationCall.apply_rotation shader :: rest, c, gl =>
    let (c1, gl1) := c.apply_rotation shader gl
    Composition.perform rest c1 gl1

/-- The matrix `m` after `n` rotation steps (`glm::rotate(·, 0.001f, pivot)`)
about `pivot`. -/
def rotate_steps (pivot : Vec3 α) : Nat → Mat4 α → Mat4 α
  | 0, m => m
  | n + 1, m => glm_rotate (rotate_steps pivot n m) (0.001 : α) pivot

/-- The entity `f2` is the entity `f1` after `n` rotation steps and nothing
else that the properties below observe: the `Object3D` base is the same, an
entity without the `Rotatable` base is the same altogether, and an entity with
one differs at most in that base, whose pivot is kept and whose transform is
advanced by `n` steps. -/
def Figure.advanced (n : Nat) (f1 f2 : Figure α) : Prop :=
  f2.obj = f1.obj
  ∧ (f1.as_rotatable = none → f2 = f1)
  ∧ (∀ q, f1.as_rotatable = some q →
      ∃ q2, f2 = f1.with_rotatable q2 ∧ q2.pivot = q.pivot
        ∧ q2.transform = rotate_steps q.pivot n q.transform)

/-- The arguments `(mode, first, count)` of a `glDrawArrays` call; `none` for
any other call. -/
def GLCall.as_draw : GLCall α → Option (Nat × Nat × Int)
  | GLCall.DrawArrays mode first count => some (mode, first, count)
  | _ => none

/-- The draw calls issued so far in a context, oldest first. -/
def GLContext.draw_calls (gl : GLContext α) : List (Nat × Nat × Int) :=
  gl.calls.filterMap GLCall.as_draw

/-- The nine floats of one fan triangle at height `y`: the rim vertex for the
counter value `i`, the rim vertex for `i + 1`, and the fan centre. -/
def fan_triangle (bx y bz r : α) (circle_quality i : Nat) : List α :=
  [bx + r * cosf ((2.0 : α) * PI * ((toInt32 i : Int) : α) / ((circle_quality : Nat) : α)),
   y,
   bz + r * sinf ((2.0 : α) * PI * ((toInt32 i : Int) : α) / ((circle_quality : Nat) : α)),
   bx + r * cosf ((2.0 : α) * PI * ((toInt32 (i + 1) : Int) : α)
      / ((circle_quality : Nat) : α)),
   y,
   bz + r * sinf ((2.0 : α) * PI * ((toInt32 (i + 1) : Int) : α)
      / ((circle_quality : Nat) : α)),
   bx, y, bz]

/-- The fan triangles for the counter values `0, …, n - 1`, in order. -/
def fan_block (bx y bz r : α) (circle_quality : Nat) : Nat → List α
  | 0 => []
  | n + 1 => fan_block bx y bz r circle_quality n ++ fan_triangle bx y bz r circle_quality n

end Model

/-- The sphere built by `new Sphere(0, 0, 0, 1, 1, 1, {0.5f, 0.5f, 0.5f},
NULL_FLOAT_VECTOR)` in a fresh context, over symbolic scalars, with the
context it leaves. -/
def constructed_sphere : Sphere FExpr × GLContext FExpr :=
  Sphere.new 0 0 0 1 1 1 [0.5, 0.5, 0.5] NULL_FLOAT_VECTOR {}

/-- The cylinder built by `new StandingCylinder(0, 0, 0, 1, 1, 1, 1,
{0.5f, 0.5f, 0.5f}, NULL_FLOAT_VECTOR)` in a fresh context, over symbolic
scalars, with the context it leaves. -/
def constructed_cylinder : StandingCylinder FExpr × GLContext FExpr :=
  StandingCylinder.new 0 0 0 1 1 1 1 [0.5, 0.5, 0.5] NULL_FLOAT_VECTOR {}

/-- A composition over symbolic scalars holding the constructed sphere and an
entity of a class without the `Rotatable` base (which draws nothing). -/
def sample_composition : Composition FExpr :=
  (Composition.add (Composition.add {} (Figure.sphere constructed_sphere.1))
    (Figure.other {} (fun _ _ gl => gl)))

/-- The Euclidean distance from the origin of the vertex with index `i` of a
position array, over the reals (the `d` of the colour formula). -/
noncomputable def euclid_distance (positions : List ℝ) (i : Nat) : ℝ :=
  Real.sqrt (positions.getD (i * 3) 0 ^ 2 + positions.getD (i * 3 + 1) 0 ^ 2
    + positions.getD (i * 3 + 2) 0 ^ 2)

/-- A two-vertex object used to instantiate statements: the vertices
`(0, 0, 0)` and `(3, 4, 0)`, no colours yet. -/
noncomputable def sample_object : Object3D ℝ := { positions := [0, 0, 0, 3, 4, 0] }

/-- A sphere state holding `sample_object`. -/
noncomputable def sample_sphere : Sphere ℝ :=
  { obj := sample_object, rot := Rotatable.default, x := 0, y := 0, z := 0, r := 5 }

/-- A cylinder state holding `sample_object`. -/
noncomputable def sample_cylinder : StandingCylinder ℝ :=
  { obj := sample_object, rot := Rotatable.default, bottom_x := 0, bottom_y := 0,
    bottom_z := 0, r := 5, h := 1 }

/-! ## The shader source loader (`parseShader`) -/

/-- The members of `struct ShaderProgramInfo`. -/
structure ShaderProgramInfo where
  vertexShaderProgramInfo : String
  fragmentShaderProgramInfo : String
  deriving DecidableEq

/-- The local `enum class ShaderType` of `parseShader`. -/
inductive ShaderType where
  | NONE : ShaderType
  | VERTEX : ShaderType
  | FRAGMENT : ShaderType
  deriving DecidableEq

/-- The enumerator values `NONE = -1, VERTEX = 0, FRAGMENT = 1`
(`static_cast <int>(type)`). -/
def ShaderType.toInt : ShaderType → Int
  | ShaderType.NONE => -1
  | ShaderType.VERTEX => 0
  | ShaderType.FRAGMENT => 1

/-- The search behind `std::string::find`, on the characters `hay` that start
at offset `pos` of the line: the offset of the first occurrence of `needle`,
or `none` for `std::string::npos`. -/
def find_from (needle : List Char) : List Char → Nat → Option Nat
  | [], pos => if needle.isPrefixOf [] then some pos else none
  | c :: rest, pos =>
    if needle.isPrefixOf (c :: rest) then some pos else find_from needle rest (pos + 1)

/-- The call `line.find(needle)`. -/
def std_find (line needle : String) : Option Nat := find_from needle.data line.data 0

/-- The test `line.find(needle) != std::string::npos`. -/
def found (line needle : String) : Bool := (std_find line needle).isSome

/-- The variables of the loop of `parseShader`: `type`, `ss[0]`, `ss[1]`. -/
structure ParseState where
  type : ShaderType
  ss0 : String
  ss1 : String

/-- The body of the loop `while (getline(stream, line))` of `parseShader` for
one line. -/
def parseShader_body (st : ParseState) (line : String) : ParseState :=
  if found line "#shader" then
    let st1 := if found line "vertex" then { st with type := ShaderType.VERTEX } else st
    if found line "fragment" then { st1 with type := ShaderType.FRAGMENT } else st1
  else
    if st.type ≠ ShaderType.NONE then
      if st.type.toInt = 0 then { st with ss0 := st.ss0 ++ line ++ "\n" }
      else { st with ss1 := st.ss1 ++ line ++ "\n" }
    else st

/-- The function `parseShader`, on the lines that `getline` reads from the
file (no line at all when the file cannot be opened). -/
def parseShader (lines : List String) : ShaderProgramInfo :=
  let st := lines.foldl parseShader_body
    { type := ShaderType.NONE, ss0 := "", ss1 := "" }
  { vertexShaderProgramInfo := st.ss0, fragmentShaderProgramInfo := st.ss1 }

/-- The line begins with the token (the marker test in the words of the
interface description). -/
def begins_with (line token : String) : Bool := token.data.isPrefixOf line.data

/-- The section a marker line opens: fragment when the line contains
`fragment`, else vertex when it contains `vertex`; `none` for a line that is
no marker, or a marker naming neither. -/
def opened_section (line : String) : Option ShaderType :=
  if found line "#shader" then
    if found line "fragment" then some ShaderType.FRAGMENT
    else if found line "vertex" then some ShaderType.VERTEX
    else none
  else none

/-- The section in force after the lines `before`, given most recent first:
the one opened by the most recent line that opens a section, `NONE` when
there is no such line. -/
def section_in_force (before : List String) : ShaderType :=
  match before.findSome? opened_section with
  | some t => t
  | none => ShaderType.NONE

/-- The source text of section `t` in lines given last first: the lines
that are no marker and stand where section `t` is in force, in file order,
each followed by a newline. -/
def section_source (t : ShaderType) : List String → String
  | [] => ""
  | line :: before =>
    section_source t before
      ++ (if !found line "#shader" && decide (section_in_force before = t)
          then line ++ "\n" else "")

/-! # Properties -/

/-! ## Loops as folds -/

/-- A loop whose body adds `k` to a measure adds `k` per iteration. -/
theorem foldl_measure_add {β ι : Type} (f : β → ι → β) (m : β → Nat) (k : Nat)
    (hf : ∀ b i, m (f b i) = m b + k) (l : List ι) (b : β) :
    m (l.foldl f b) = m b + k * l.length := by
  induction l generalizing b with
  | nil => simp
  | cons a t ih =>
    rw [List.foldl_cons, ih, hf, List.length_cons]
    ring

/-- A loop whose body leaves a projection alone leaves it alone. -/
theorem foldl_proj_const {β ι γ : Type} (f : β → ι → β) (g : β → γ)
    (hf : ∀ b i, g (f b i) = g b) (l : List ι) (b : β) :
    g (l.foldl f b) = g b := by
  induction l generalizing b with
  | nil => rfl
  | cons a t ih => rw [List.foldl_cons, ih, hf]

/-! ## The members of `Object3D` under its methods -/

section Frame

variable {α : Type}

@[simp] theorem push_to_positions_length (o : Object3D α) (p : α) :
    (o.push_to_positions p).positions.length = o.positions.length + 1 := by
  simp [Object3D.push_to_positions]

@[simp] theorem push_to_positions_besides (o : Object3D α) (p : α) :
    (o.push_to_positions p).besides_positions = o.besides_positions := rfl

@[simp] theorem push_to_colors_besides (o : Object3D α) (c : α) :
    (o.push_to_colors c).besides_colors = o.besides_colors := rfl

@[simp] theorem push_to_colors_colors (o : Object3D α) (c : α) :
    (o.push_to_colors c).colors = o.colors ++ [c] := rfl

@[simp] theorem init_vbo_positions (o : Object3D α) (gl : GLContext α) :
    (o.init_vbo gl).1.positions = o.positions := rfl

@[simp] theorem init_vbo_colors (o : Object3D α) (gl : GLContext α) :
    (o.init_vbo gl).1.colors = o.colors := rfl

@[simp] theorem init_vbo_normals (o : Object3D α) (gl : GLContext α) :
    (o.init_vbo gl).1.normals = o.normals := rfl

@[simp] theorem init_vbo_cbo (o : Object3D α) (gl : GLContext α) :
    (o.init_vbo gl).1.cbo = o.cbo := rfl

@[simp] theorem init_vbo_nbo (o : Object3D α) (gl : GLContext α) :
    (o.init_vbo gl).1.nbo = o.nbo := rfl

@[simp] theorem init_cbo_positions (o : Object3D α) (gl : GLContext α) :
    (o.init_cbo gl).1.positions = o.positions := rfl

@[simp] theorem init_cbo_colors (o : Object3D α) (gl : GLContext α) :
    (o.init_cbo gl).1.colors = o.colors := rfl

@[simp] theorem init_cbo_normals (o : Object3D α) (gl : GLContext α) :
    (o.init_cbo gl).1.normals = o.normals := rfl

@[simp] theorem init_cbo_nbo (o : Object3D α) (gl : GLContext α) :
    (o.init_cbo gl).1.nbo = o.nbo := rfl

@[simp] theorem init_nbo_from_positions (o : Object3D α) (n : List α) (gl : GLContext α) :
    (o.init_nbo_from n gl).1.positions = o.positions := rfl

@[simp] theorem init_nbo_from_colors (o : Object3D α) (n : List α) (gl : GLContext α) :
    (o.init_nbo_from n gl).1.colors = o.colors := rfl

@[simp] theorem init_nbo_from_normals (o : Object3D α) (n : List α) (gl : GLContext α) :
    (o.init_nbo_from n gl).1.normals = n := rfl

@[simp] theorem init_nbo_from_cbo (o : Object3D α) (n : List α) (gl : GLContext α) :
    (o.init_nbo_from n gl).1.cbo = o.cbo := rfl

end Frame

set_option linter.unusedSectionVars false

section Proofs

variable {α : Type} [Zero α] [One α] [Add α] [Sub α] [Mul α] [Div α] [Neg α]
  [NatCast α] [IntCast α] [OfScientific α] [FloatMath α] [DecidableEq α]

/-! ## Sphere generation -/

theorem sphere_body_length (x y z r : α) (L D i j : Nat) (o : Object3D α) :
    (Sphere.generate_sphere_body x y z r L D i j o).positions.length
      = o.positions.length + 18 := by
  simp only [Sphere.generate_sphere_body, push_to_positions_length]

theorem sphere_body_besides (x y z r : α) (L D i j : Nat) (o : Object3D α) :
    (Sphere.generate_sphere_body x y z r L D i j o).besides_positions
      = o.besides_positions := by
  simp only [Sphere.generate_sphere_body, push_to_positions_besides]

theorem sphere_loops_length (x y z r : α) (L D : Nat) (o : Object3D α) :
    (sphere_loops x y z r L D o).positions.length = o.positions.length + L * D * 6 * 3 := by
  have inner : ∀ (o : Object3D α) (i : Nat),
      ((List.range D).foldl
        (fun o j => Sphere.generate_sphere_body x y z r L D i j o) o).positions.length
        = o.positions.length + 18 * D := by
    intro o i
    have h := foldl_measure_add
      (fun o j => Sphere.generate_sphere_body x y z r L D i j o)
      (fun o => o.positions.length) 18
      (fun b j => sphere_body_length x y z r L D i j b) (List.range D) o
    simpa using h
  have outer := foldl_measure_add
    (fun o i => (List.range D).foldl
      (fun o j => Sphere.generate_sphere_body x y z r L D i j o) o)
    (fun o => o.positions.length) (18 * D) inner (List.range L) o
  simp only [List.length_range] at outer
  rw [sphere_loops, outer]
  ring

theorem sphere_loops_besides (x y z r : α) (L D : Nat) (o : Object3D α) :
    (sphere_loops x y z r L D o).besides_positions = o.besides_positions := by
  unfold sphere_loops
  refine foldl_proj_const _ Object3D.besides_positions (fun b i => ?_) _ _
  refine foldl_proj_const _ Object3D.besides_positions (fun b j => ?_) _ _
  exact sphere_body_besides x y z r L D i j b

theorem generate_sphere_obj (s : Sphere α) (x y z r : α) (L D : Nat) (gl : GLContext α) :
    (s.generate_sphere x y z r L D gl).1.obj
      = ((sphere_loops x y z r L D s.obj).init_vbo gl).1 := rfl

/-! ## The colour pass -/

theorem cylinder_color_body_eq (rgb : List α) (i : Nat) (o : Object3D α) :
    StandingCylinder.apply_color_body rgb i o = Sphere.apply_colors_body rgb i o := rfl

theorem color_body_besides (rgb : List α) (i : Nat) (o : Object3D α) :
    (Sphere.apply_colors_body rgb i o).besides_colors = o.besides_colors := by
  simp only [Sphere.apply_colors_body, push_to_colors_besides]

theorem color_body_colors (rgb : List α) (i : Nat) (o : Object3D α) :
    (Sphere.apply_colors_body rgb i o).colors
      = o.colors ++ gradient_triple o.positions rgb i := by
  simp only [Sphere.apply_colors_body, push_to_colors_colors, gradient_triple,
    Object3D.get_positions, List.append_assoc, List.singleton_append, List.cons_append,
    List.nil_append]

theorem color_loop_besides (rgb : List α) (n : Nat) (o : Object3D α) :
    ((List.range n).foldl (fun o i => Sphere.apply_colors_body rgb i o) o).besides_colors
      = o.besides_colors :=
  foldl_proj_const _ Object3D.besides_colors (fun b i => color_body_besides rgb i b) _ _

theorem color_loop_positions (rgb : List α) (n : Nat) (o : Object3D α) :
    ((List.range n).foldl (fun o i => Sphere.apply_colors_body rgb i o) o).positions
      = o.positions :=
  congrArg Prod.fst (color_loop_besides rgb n o)

theorem color_loop_colors (rgb : List α) (n : Nat) (o : Object3D α) :
    ((List.range n).foldl (fun o i => Sphere.apply_colors_body rgb i o) o).colors
      = o.colors ++ gradient_colors o.positions rgb n := by
  induction n with
  | zero => simp [gradient_colors]
  | succ k ih =>
    rw [List.range_succ, List.foldl_append, List.foldl_cons, List.foldl_nil,
      color_body_colors, ih, color_loop_positions, gradient_colors, List.append_assoc]

theorem gradient_colors_length (p rgb : List α) (n : Nat) :
    (gradient_colors p rgb n).length = 3 * n := by
  induction n with
  | zero => rfl
  | succ k ih =>
    rw [gradient_colors, List.length_append, ih]
    simp [gradient_triple]
    ring

theorem apply_colors_obj (s : Sphere α) (rgb : List α) (L D : Nat) (gl : GLContext α) :
    (s.apply_colors rgb L D gl).1.obj
      = (((List.range (color_count s.obj.positions.length)).foldl
          (fun o i => Sphere.apply_colors_body rgb i o) s.obj).init_cbo gl).1 := rfl

theorem apply_colors_positions (s : Sphere α) (rgb : List α) (L D : Nat) (gl : GLContext α) :
    (s.apply_colors rgb L D gl).1.obj.positions = s.obj.positions := by
  rw [apply_colors_obj, init_cbo_positions, color_loop_positions]

theorem apply_colors_colors (s : Sphere α) (rgb : List α) (L D : Nat) (gl : GLContext α) :
    (s.apply_colors rgb L D gl).1.obj.colors
      = s.obj.colors
        ++ gradient_colors s.obj.positions rgb (color_count s.obj.positions.length) := by
  rw [apply_colors_obj, init_cbo_colors, color_loop_colors]

theorem apply_colors_normals (s : Sphere α) (rgb : List α) (L D : Nat) (gl : GLContext α) :
    (s.apply_colors rgb L D gl).1.obj.normals = s.obj.normals := by
  rw [apply_colors_obj, init_cbo_normals]
  exact congrArg (fun t => t.2.1) (color_loop_besides rgb _ s.obj)

theorem apply_colors_nbo (s : Sphere α) (rgb : List α) (L D : Nat) (gl : GLContext α) :
    (s.apply_colors rgb L D gl).1.obj.nbo = s.obj.nbo := by
  rw [apply_colors_obj, init_cbo_nbo]
  exact congrArg (fun t => t.2.2.2.2) (color_loop_besides rgb _ s.obj)

/-! ## The `Sphere` constructor -/

theorem sphere_new_positions (x y z r : α) (L D : Nat) (rgb normals : List α)
    (gl : GLContext α) :
    (Sphere.new x y z r L D rgb normals gl).1.obj.positions
      = (sphere_loops x y z r L D {}).positions := by
  unfold Sphere.new
  by_cases h1 : rgb = NULL_FLOAT_VECTOR <;> by_cases h2 : normals = NULL_FLOAT_VECTOR <;>
    simp [h1, h2, apply_colors_positions, generate_sphere_obj]

theorem sphere_loops_colors (x y z r : α) (L D : Nat) (o : Object3D α) :
    (sphere_loops x y z r L D o).colors = o.colors :=
  congrArg (fun t => t.1) (sphere_loops_besides x y z r L D o)

theorem sphere_loops_normals (x y z r : α) (L D : Nat) (o : Object3D α) :
    (sphere_loops x y z r L D o).normals = o.normals :=
  congrArg (fun t => t.2.1) (sphere_loops_besides x y z r L D o)

theorem sphere_loops_cbo (x y z r : α) (L D : Nat) (o : Object3D α) :
    (sphere_loops x y z r L D o).cbo = o.cbo :=
  congrArg (fun t => t.2.2.2.1) (sphere_loops_besides x y z r L D o)

theorem sphere_loops_nbo (x y z r : α) (L D : Nat) (o : Object3D α) :
    (sphere_loops x y z r L D o).nbo = o.nbo :=
  congrArg (fun t => t.2.2.2.2) (sphere_loops_besides x y z r L D o)

theorem sphere_new_colors (x y z r : α) (L D : Nat) (rgb normals : List α)
    (gl : GLContext α) :
    (Sphere.new x y z r L D rgb normals gl).1.obj.colors
      = if rgb = NULL_FLOAT_VECTOR then []
        else gradient_colors (sphere_loops x y z r L D {}).positions rgb
          (color_count (sphere_loops x y z r L D {}).positions.length) := by
  unfold Sphere.new
  by_cases h1 : rgb = NULL_FLOAT_VECTOR <;> by_cases h2 : normals = NULL_FLOAT_VECTOR <;>
    simp [h1, h2, apply_colors_colors, generate_sphere_obj, sphere_loops_colors]

theorem sphere_new_normals (x y z r : α) (L D : Nat) (rgb normals : List α)
    (gl : GLContext α) :
    (Sphere.new x y z r L D rgb normals gl).1.obj.normals
      = if normals = NULL_FLOAT_VECTOR then [] else normals := by
  unfold Sphere.new
  by_cases h1 : rgb = NULL_FLOAT_VECTOR <;> by_cases h2 : normals = NULL_FLOAT_VECTOR <;>
    simp [h1, h2, apply_colors_normals, generate_sphere_obj, sphere_loops_normals]

theorem sphere_new_cbo_sentinel (x y z r : α) (L D : Nat) (normals : List α)
    (gl : GLContext α) :
    (Sphere.new x y z r L D NULL_FLOAT_VECTOR normals gl).1.obj.cbo = 0 := by
  unfold Sphere.new
  by_cases h2 : normals = NULL_FLOAT_VECTOR <;>
    simp [h2, generate_sphere_obj, sphere_loops_cbo]

theorem sphere_new_nbo_sentinel (x y z r : α) (L D : Nat) (rgb : List α)
    (gl : GLContext α) :
    (Sphere.new x y z r L D rgb NULL_FLOAT_VECTOR gl).1.obj.nbo = 0 := by
  unfold Sphere.new
  by_cases h1 : rgb = NULL_FLOAT_VECTOR <;>
    simp [h1, apply_colors_nbo, generate_sphere_obj, sphere_loops_nbo]

/-! ## Cylinder generation -/

theorem bottom_fan_body_length (bx by_ bz r : α) (C i : Nat) (o : Object3D α) :
    (StandingCylinder.bottom_fan_body bx by_ bz r C i o).positions.length
      = o.positions.length + 9 := by
  simp only [StandingCylinder.bottom_fan_body, push_to_positions_length]

theorem top_fan_body_length (bx by_ bz r h : α) (C i : Nat) (o : Object3D α) :
    (StandingCylinder.top_fan_body bx by_ bz r h C i o).positions.length
      = o.positions.length + 9 := by
  simp only [StandingCylinder.top_fan_body, push_to_positions_length]

theorem side_body_length (bx by_ bz r h : α) (S i : Nat) (o : Object3D α) :
    (StandingCylinder.side_body bx by_ bz r h S i o).positions.length
      = o.positions.length + 18 := by
  simp only [StandingCylinder.side_body, push_to_positions_length]

theorem bottom_fan_body_besides (bx by_ bz r : α) (C i : Nat) (o : Object3D α) :
    (StandingCylinder.bottom_fan_body bx by_ bz r C i o).besides_positions
      = o.besides_positions := by
  simp only [StandingCylinder.bottom_fan_body, push_to_positions_besides]

theorem top_fan_body_besides (bx by_ bz r h : α) (C i : Nat) (o : Object3D α) :
    (StandingCylinder.top_fan_body bx by_ bz r h C i o).besides_positions
      = o.besides_positions := by
  simp only [StandingCylinder.top_fan_body, push_to_positions_besides]

theorem side_body_besides (bx by_ bz r h : α) (S i : Nat) (o : Object3D α) :
    (StandingCylinder.side_body bx by_ bz r h S i o).besides_positions
      = o.besides_positions := by
  simp only [StandingCylinder.side_body, push_to_positions_besides]

theorem cylinder_loops_length (bx by_ bz r h : α) (C S : Nat) (o : Object3D α) :
    (cylinder_loops bx by_ bz r h C S o).positions.length
      = o.positions.length + ((C * 3 * 3 * 2) + (S * 6 * 3)) := by
  unfold cylinder_loops
  rw [foldl_measure_add _ (fun o => o.positions.length) 18
        (fun b i => side_body_length bx by_ bz r h S i b),
      foldl_measure_add _ (fun o => o.positions.length) 9
        (fun b i => top_fan_body_length bx by_ bz r h C i b),
      foldl_measure_add _ (fun o => o.positions.length) 9
        (fun b i => bottom_fan_body_length bx by_ bz r C i b)]
  simp only [List.length_range]
  ring

theorem cylinder_loops_besides (bx by_ bz r h : α) (C S : Nat) (o : Object3D α) :
    (cylinder_loops bx by_ bz r h C S o).besides_positions = o.besides_positions := by
  unfold cylinder_loops
  rw [foldl_proj_const _ Object3D.besides_positions
        (fun b i => side_body_besides bx by_ bz r h S i b),
      foldl_proj_const _ Object3D.besides_positions
        (fun b i => top_fan_body_besides bx by_ bz r h C i b),
      foldl_proj_const _ Object3D.besides_positions
        (fun b i => bottom_fan_body_besides bx by_ bz r C i b)]

theorem cylinder_loops_colors (bx by_ bz r h : α) (C S : Nat) (o : Object3D α) :
    (cylinder_loops bx by_ bz r h C S o).colors = o.colors :=
  congrArg (fun t => t.1) (cylinder_loops_besides bx by_ bz r h C S o)

theorem cylinder_loops_normals (bx by_ bz r h : α) (C S : Nat) (o : Object3D α) :
    (cylinder_loops bx by_ bz r h C S o).normals = o.normals :=
  congrArg (fun t => t.2.1) (cylinder_loops_besides bx by_ bz r h C S o)

theorem cylinder_loops_cbo (bx by_ bz r h : α) (C S : Nat) (o : Object3D α) :
    (cylinder_loops bx by_ bz r h C S o).cbo = o.cbo :=
  congrArg (fun t => t.2.2.2.1) (cylinder_loops_besides bx by_ bz r h C S o)

theorem cylinder_loops_nbo (bx by_ bz r h : α) (C S : Nat) (o : Object3D α) :
    (cylinder_loops bx by_ bz r h C S o).nbo = o.nbo :=
  congrArg (fun t => t.2.2.2.2) (cylinder_loops_besides bx by_ bz r h C S o)

theorem generate_cylinder_obj (s : StandingCylinder α) (bx by_ bz r h : α) (C S : Nat)
    (gl : GLContext α) :
    (s.generate_cylinder bx by_ bz r h C S gl).1.obj
      = ((cylinder_loops bx by_ bz r h C S s.obj).init_vbo gl).1 := rfl

theorem apply_color_obj (s : StandingCylinder α) (rgb : List α) (C S : Nat)
    (gl : GLContext α) :
    (s.apply_color rgb C S gl).1.obj
      = (((List.range (color_count s.obj.positions.length)).foldl
          (fun o i => Sphere.apply_colors_body rgb i o) s.obj).init_cbo gl).1 := rfl

theorem apply_color_positions (s : StandingCylinder α) (rgb : List α) (C S : Nat)
    (gl : GLContext α) :
    (s.apply_color rgb C S gl).1.obj.positions = s.obj.positions := by
  rw [apply_color_obj, init_cbo_positions, color_loop_positions]

theorem apply_color_colors (s : StandingCylinder α) (rgb : List α) (C S : Nat)
    (gl : GLContext α) :
    (s.apply_color rgb C S gl).1.obj.colors
      = s.obj.colors
        ++ gradient_colors s.obj.positions rgb (color_count s.obj.positions.length) := by
  rw [apply_color_obj, init_cbo_colors, color_loop_colors]

theorem apply_color_normals (s : StandingCylinder α) (rgb : List α) (C S : Nat)
    (gl : GLContext α) :
    (s.apply_color rgb C S gl).1.obj.normals = s.obj.normals := by
  rw [apply_color_obj, init_cbo_normals]
  exact congrArg (fun t => t.2.1) (color_loop_besides rgb _ s.obj)

theorem apply_color_nbo (s : StandingCylinder α) (rgb : List α) (C S : Nat)
    (gl : GLContext α) :
    (s.apply_color rgb C S gl).1.obj.nbo = s.obj.nbo := by
  rw [apply_color_obj, init_cbo_nbo]
  exact congrArg (fun t => t.2.2.2.2) (color_loop_besides rgb _ s.obj)

/-! ## The `StandingCylinder` constructor -/

theorem cylinder_new_positions (x y z r h : α) (C S : Nat) (rgb normals : List α)
    (gl : GLContext α) :
    (StandingCylinder.new x y z r h C S rgb normals gl).1.obj.positions
      = (cylinder_loops x y z r h C S {}).positions := by
  unfold StandingCylinder.new
  by_cases h1 : rgb = NULL_FLOAT_VECTOR <;> by_cases h2 : normals = NULL_FLOAT_VECTOR <;>
    simp [h1, h2, apply_color_positions, generate_cylinder_obj]

theorem cylinder_new_colors (x y z r h : α) (C S : Nat) (rgb normals : List α)
    (gl : GLContext α) :
    (StandingCylinder.new x y z r h C S rgb normals gl).1.obj.colors
      = if rgb = NULL_FLOAT_VECTOR then []
        else gradient_colors (cylinder_loops x y z r h C S {}).positions rgb
          (color_count (cylinder_loops x y z r h C S {}).positions.length) := by
  unfold StandingCylinder.new
  by_cases h1 : rgb = NULL_FLOAT_VECTOR <;> by_cases h2 : normals = NULL_FLOAT_VECTOR <;>
    simp [h1, h2, apply_color_colors, generate_cylinder_obj, cylinder_loops_colors]

theorem cylinder_new_normals (x y z r h : α) (C S : Nat) (rgb normals : List α)
    (gl : GLContext α) :
    (StandingCylinder.new x y z r h C S rgb normals gl).1.obj.normals
      = if normals = NULL_FLOAT_VECTOR then [] else normals := by
  unfold StandingCylinder.new
  by_cases h1 : rgb = NULL_FLOAT_VECTOR <;> by_cases h2 : normals = NULL_FLOAT_VECTOR <;>
    simp [h1, h2, apply_color_normals, generate_cylinder_obj, cylinder_loops_normals]

theorem cylinder_new_cbo_sentinel (x y z r h : α) (C S : Nat) (normals : List α)
    (gl : GLContext α) :
    (StandingCylinder.new x y z r h C S NULL_FLOAT_VECTOR normals gl).1.obj.cbo = 0 := by
  unfold StandingCylinder.new
  by_cases h2 : normals = NULL_FLOAT_VECTOR <;>
    simp [h2, generate_cylinder_obj, cylinder_loops_cbo]

theorem cylinder_new_nbo_sentinel (x y z r h : α) (C S : Nat) (rgb : List α)
    (gl : GLContext α) :
    (StandingCylinder.new x y z r h C S rgb NULL_FLOAT_VECTOR gl).1.obj.nbo = 0 := by
  unfold StandingCylinder.new
  by_cases h1 : rgb = NULL_FLOAT_VECTOR <;>
    simp [h1, apply_color_nbo, generate_cylinder_obj, cylinder_loops_nbo]

/-! ## Claims about the tessellation sizes -/

theorem sphere_position_count (x y z r : α) (L D : Nat) (rgb normals : List α)
    (gl : GLContext α) :
    (Sphere.new x y z r L D rgb normals gl).1.obj.positions.length = L * D * 6 * 3 := by
  rw [sphere_new_positions, sphere_loops_length]
  simp

theorem cylinder_position_count (x y z r h : α) (C S : Nat) (rgb normals : List α)
    (gl : GLContext α) :
    (StandingCylinder.new x y z r h C S rgb normals gl).1.obj.positions.length
      = (C * 3 * 3 * 2) + (S * 6 * 3) := by
  rw [cylinder_new_positions, cylinder_loops_length]
  simp

/-- C1. For every layer quality `L` and density quality `D` (zero included), a
`Sphere` constructed with those qualities has a position array of exactly
`L * D * 6 * 3` floats, whatever the centre, the radius, the colour and normal
arguments and the OpenGL context. -/
theorem C1_sphere_position_count (x y z r : α) (L D : Nat) (rgb normals : List α)
    (gl : GLContext α) :
    (Sphere.new x y z r L D rgb normals gl).1.obj.get_positions.length = L * D * 6 * 3 := by
  rw [Object3D.get_positions, sphere_new_positions, sphere_loops_length]
  simp only [Object3D.positions, List.length_nil, Nat.zero_add]

/-- C2. For every circle quality `C` and side quality `S` (zero included), a
`StandingCylinder` constructed with those qualities has a position array of
exactly `(C * 3 * 3 * 2) + (S * 6 * 3)` floats, whatever the base centre,
radius, height, the colour and normal arguments and the OpenGL context. -/
theorem C2_cylinder_position_count (x y z r h : α) (C S : Nat) (rgb normals : List α)
    (gl : GLContext α) :
    (StandingCylinder.new x y z r h C S rgb normals gl).1.obj.get_positions.length
      = (C * 3 * 3 * 2) + (S * 6 * 3) := by
  rw [Object3D.get_positions, cylinder_new_positions, cylinder_loops_length]
  simp only [Object3D.positions, List.length_nil, Nat.zero_add]

/-! ## Colour array against position array -/

theorem color_count_small (n : Nat) (h : n / 3 < 2 ^ 31) : color_count n = n / 3 := by
  unfold color_count toInt32
  have h1 : n / 3 % 2 ^ 32 = n / 3 := Nat.mod_eq_of_lt (by omega)
  rw [h1, if_pos h]
  exact Int.toNat_ofNat (n / 3)

/-- Below `2^31` vertices the colour pass writes one triple per vertex: the
colour array of a constructed sphere is as long as its position array. -/
theorem sphere_colors_aligned (x y z r : α) (L D : Nat) (rgb normals : List α)
    (gl : GLContext α) (hrgb : rgb ≠ NULL_FLOAT_VECTOR) (hsmall : L * D * 6 < 2 ^ 31) :
    (Sphere.new x y z r L D rgb normals gl).1.obj.get_colors.length
      = (Sphere.new x y z r L D rgb normals gl).1.obj.get_positions.length := by
  rw [Object3D.get_positions, sphere_position_count, Object3D.get_colors, sphere_new_colors,
    if_neg hrgb, gradient_colors_length, sphere_loops_length, color_count_small]
  · simp only [Object3D.positions, List.length_nil, Nat.zero_add]; omega
  · simp only [Object3D.positions, List.length_nil, Nat.zero_add]; omega

/-- C3 (evaluation at the failing input). A sphere of quality `2 x 178956971`
with the base colour `{0.5, 0.5, 0.5}` has `6442450956` position floats
(`2147483652` vertices) and an empty colour array: `static_cast<int>` turns
the vertex count into a negative `num_vertices`, and the colour loop does not
run.  The same happens for a cylinder of quality `0 x 357913942`. -/
theorem C3_colour_array_truncated (x y z r h : α) (normals : List α) (gl : GLContext α) :
    (Sphere.new x y z r 2 178956971 [(0.5 : α), 0.5, 0.5] normals gl).1.obj.get_positions.length
        = 6442450956
    ∧ (Sphere.new x y z r 2 178956971 [(0.5 : α), 0.5, 0.5] normals gl).1.obj.get_colors = []
    ∧ (StandingCylinder.new x y z r h 0 357913942 [(0.5 : α), 0.5, 0.5] normals
        gl).1.obj.get_positions.length = 6442450956
    ∧ (StandingCylinder.new x y z r h 0 357913942 [(0.5 : α), 0.5, 0.5] normals
        gl).1.obj.get_colors = [] := by
  have hne : [(0.5 : α), 0.5, 0.5] ≠ NULL_FLOAT_VECTOR := by
    simp [NULL_FLOAT_VECTOR]
  have hcount : color_count 6442450956 = 0 := by decide
  refine ⟨by rw [Object3D.get_positions, sphere_position_count], ?_,
    by rw [Object3D.get_positions, cylinder_position_count], ?_⟩
  · rw [Object3D.get_colors, sphere_new_colors, if_neg hne, sphere_loops_length]
    simp only [Object3D.positions, List.length_nil, Nat.zero_add]
    rw [show 2 * 178956971 * 6 * 3 = 6442450956 from rfl, hcount]
    rfl
  · rw [Object3D.get_colors, cylinder_new_colors, if_neg hne, cylinder_loops_length]
    simp only [Object3D.positions, List.length_nil, Nat.zero_add]
    rw [show 0 * 3 * 3 * 2 + 357913942 * 6 * 3 = 6442450956 from rfl, hcount]
    rfl

/-! ## The shape of the attribute arrays -/

/-- C4 (counterexample). A sphere of quality `1 x 1` constructed with the
two-float normals array `{0, 0}` keeps that array: its length `2` is not a
multiple of 3, and it holds `0` whole vertices against the `6` vertices of the
position array. -/
theorem C4_normals_not_validated :
    (Sphere.new (0 : FExpr) 0 0 1 1 1 [0.5, 0.5, 0.5] [0, 0] {}).1.obj.get_normals.length = 2
    ∧ ¬ 3 ∣ (Sphere.new (0 : FExpr) 0 0 1 1 1 [0.5, 0.5, 0.5] [0, 0]
        {}).1.obj.get_normals.length
    ∧ (Sphere.new (0 : FExpr) 0 0 1 1 1 [0.5, 0.5, 0.5] [0, 0] {}).1.obj.get_normals.length / 3
        ≠ (Sphere.new (0 : FExpr) 0 0 1 1 1 [0.5, 0.5, 0.5] [0, 0]
            {}).1.obj.get_positions.length / 3 := by
  have hne : [(0 : FExpr), 0] ≠ NULL_FLOAT_VECTOR := by simp [NULL_FLOAT_VECTOR]
  have hn : (Sphere.new (0 : FExpr) 0 0 1 1 1 [0.5, 0.5, 0.5] [0, 0]
      {}).1.obj.get_normals.length = 2 := by
    rw [Object3D.get_normals, sphere_new_normals, if_neg hne]
    rfl
  have hp : (Sphere.new (0 : FExpr) 0 0 1 1 1 [0.5, 0.5, 0.5] [0, 0]
      {}).1.obj.get_positions.length = 18 := by
    rw [Object3D.get_positions, sphere_position_count]
  rw [hn, hp]
  decide

/-- C4 (amended). For every `Sphere` and `StandingCylinder` produced by its
constructor, for every choice of arguments, the position array and the colour
array have lengths that are multiples of 3, and the normals array is exactly
the array the caller supplied (empty when the sentinel was supplied): the
constructor stores it unchecked. -/
theorem C4_attribute_array_shape (x y z r h : α) (L D C S : Nat) (rgb normals : List α)
    (gl : GLContext α) :
    (3 ∣ (Sphere.new x y z r L D rgb normals gl).1.obj.get_positions.length
      ∧ 3 ∣ (Sphere.new x y z r L D rgb normals gl).1.obj.get_colors.length
      ∧ (Sphere.new x y z r L D rgb normals gl).1.obj.get_normals
          = if normals = NULL_FLOAT_VECTOR then [] else normals)
    ∧ (3 ∣ (StandingCylinder.new x y z r h C S rgb normals gl).1.obj.get_positions.length
      ∧ 3 ∣ (StandingCylinder.new x y z r h C S rgb normals gl).1.obj.get_colors.length
      ∧ (StandingCylinder.new x y z r h C S rgb normals gl).1.obj.get_normals
          = if normals = NULL_FLOAT_VECTOR then [] else normals) := by
  refine ⟨⟨?_, ?_, sphere_new_normals x y z r L D rgb normals gl⟩,
    ⟨?_, ?_, cylinder_new_normals x y z r h C S rgb normals gl⟩⟩
  · rw [Object3D.get_positions, sphere_position_count]
    exact Dvd.intro_left _ rfl
  · rw [Object3D.get_colors, sphere_new_colors]
    split
    · exact ⟨0, rfl⟩
    · rw [gradient_colors_length]
      exact Dvd.intro _ rfl
  · rw [Object3D.get_positions, cylinder_position_count]
    exact ⟨C * 3 * 2 + S * 6, by ring⟩
  · rw [Object3D.get_colors, cylinder_new_colors]
    split
    · exact ⟨0, rfl⟩
    · rw [gradient_colors_length]
      exact Dvd.intro _ rfl

/-! ## The sentinel -/

/-- C5. For every `Sphere` and `StandingCylinder`: constructed with the
sentinel `NULL_FLOAT_VECTOR` as base colour, the colour array is empty, `cbo`
is `0` and `is_cbo_init()` is false; constructed with the sentinel as normals
argument, the normals array is empty and `nbo` is `0`; and the position array
is the same whatever the colour and normals arguments (sentinel or not) are. -/
theorem C5_sentinel_skips_attribute (x y z r h : α) (L D C S : Nat)
    (rgb normals rgb2 normals2 : List α) (gl : GLContext α) :
    ((Sphere.new x y z r L D NULL_FLOAT_VECTOR normals gl).1.obj.get_colors = []
      ∧ (Sphere.new x y z r L D NULL_FLOAT_VECTOR normals gl).1.obj.get_cbo = 0
      ∧ (Sphere.new x y z r L D NULL_FLOAT_VECTOR normals gl).1.obj.is_cbo_init = false
      ∧ (Sphere.new x y z r L D rgb NULL_FLOAT_VECTOR gl).1.obj.get_normals = []
      ∧ (Sphere.new x y z r L D rgb NULL_FLOAT_VECTOR gl).1.obj.get_nbo = 0
      ∧ (Sphere.new x y z r L D rgb normals gl).1.obj.get_positions
          = (Sphere.new x y z r L D rgb2 normals2 gl).1.obj.get_positions)
    ∧ ((StandingCylinder.new x y z r h C S NULL_FLOAT_VECTOR normals gl).1.obj.get_colors = []
      ∧ (StandingCylinder.new x y z r h C S NULL_FLOAT_VECTOR normals gl).1.obj.get_cbo = 0
      ∧ (StandingCylinder.new x y z r h C S NULL_FLOAT_VECTOR normals
          gl).1.obj.is_cbo_init = false
      ∧ (StandingCylinder.new x y z r h C S rgb NULL_FLOAT_VECTOR gl).1.obj.get_normals = []
      ∧ (StandingCylinder.new x y z r h C S rgb NULL_FLOAT_VECTOR gl).1.obj.get_nbo = 0
      ∧ (StandingCylinder.new x y z r h C S rgb normals gl).1.obj.get_positions
          = (StandingCylinder.new x y z r h C S rgb2 normals2 gl).1.obj.get_positions) := by
  refine ⟨⟨?_, ?_, ?_, ?_, ?_, ?_⟩, ⟨?_, ?_, ?_, ?_, ?_, ?_⟩⟩
  · rw [Object3D.get_colors, sphere_new_colors, if_pos rfl]
  · exact sphere_new_cbo_sentinel x y z r L D normals gl
  · simp [Object3D.is_cbo_init, sphere_new_cbo_sentinel]
  · rw [Object3D.get_normals, sphere_new_normals, if_pos rfl]
  · exact sphere_new_nbo_sentinel x y z r L D rgb gl
  · rw [Object3D.get_positions, Object3D.get_positions, sphere_new_positions,
      sphere_new_positions]
  · rw [Object3D.get_colors, cylinder_new_colors, if_pos rfl]
  · exact cylinder_new_cbo_sentinel x y z r h C S normals gl
  · simp [Object3D.is_cbo_init, cylinder_new_cbo_sentinel]
  · rw [Object3D.get_normals, cylinder_new_normals, if_pos rfl]
  · exact cylinder_new_nbo_sentinel x y z r h C S rgb gl
  · rw [Object3D.get_positions, Object3D.get_positions, cylinder_new_positions,
      cylinder_new_positions]

/-! ## The colour formula -/

theorem gradient_triple_getD (p rgb : List α) (i k : Nat) (hk : k < 3) :
    (gradient_triple p rgb i).getD k 0
      = rgb.getD k 0 * ((1.0 : α) - gradientFactor p i) := by
  interval_cases k <;> rfl

theorem gradient_colors_getD (p rgb : List α) (n i k : Nat) (hi : i < n) (hk : k < 3) :
    (gradient_colors p rgb n).getD (i * 3 + k) 0
      = rgb.getD k 0 * ((1.0 : α) - gradientFactor p i) := by
  induction n with
  | zero => omega
  | succ m ih =>
    rw [gradient_colors]
    by_cases him : i < m
    · rw [List.getD_append _ _ _ _ (by rw [gradient_colors_length]; omega)]
      exact ih him
    · have hi' : i = m := by omega
      subst hi'
      rw [List.getD_append_right _ _ _ _ (by rw [gradient_colors_length]; omega),
        gradient_colors_length]
      have : i * 3 + k - 3 * i = k := by omega
      rw [this]
      exact gradient_triple_getD p rgb i k hk

end Proofs

/-! ## Repeating the colour pass -/

section Repeat

variable {α : Type} [Zero α] [One α] [Add α] [Sub α] [Mul α] [Div α] [Neg α]
  [NatCast α] [IntCast α] [OfScientific α] [FloatMath α] [DecidableEq α]

theorem constructed_sphere_colors_length :
    constructed_sphere.1.obj.colors.length = 18 := by
  have hne : [(0.5 : FExpr), 0.5, 0.5] ≠ NULL_FLOAT_VECTOR := by simp [NULL_FLOAT_VECTOR]
  rw [constructed_sphere, sphere_new_colors, if_neg hne, gradient_colors_length,
    sphere_loops_length]
  decide

theorem constructed_sphere_positions_length :
    constructed_sphere.1.obj.positions.length = 18 := by
  rw [constructed_sphere, sphere_position_count]

/-- C7 (counterexample). The sphere `new Sphere(0, 0, 0, 1, 1, 1, {0.5, 0.5,
0.5}, NULL_FLOAT_VECTOR)` holds 18 colour floats after the `apply_colors` call
of its constructor.  Calling `apply_colors` on it again with the same base
colour leaves the position array as it is and yields a colour array of 36
floats: not the array the first call produced from the same position data and
base colour. -/
theorem C7_second_invocation_differs :
    (constructed_sphere.1.apply_colors [0.5, 0.5, 0.5] 1 1
        constructed_sphere.2).1.obj.get_positions = constructed_sphere.1.obj.get_positions
    ∧ constructed_sphere.1.obj.get_colors.length = 18
    ∧ (constructed_sphere.1.apply_colors [0.5, 0.5, 0.5] 1 1
        constructed_sphere.2).1.obj.get_colors.length = 36
    ∧ (constructed_sphere.1.apply_colors [0.5, 0.5, 0.5] 1 1
        constructed_sphere.2).1.obj.get_colors ≠ constructed_sphere.1.obj.get_colors := by
  have h36 : (constructed_sphere.1.apply_colors [0.5, 0.5, 0.5] 1 1
      constructed_sphere.2).1.obj.get_colors.length = 36 := by
    rw [Object3D.get_colors, apply_colors_colors, List.length_append,
      gradient_colors_length, constructed_sphere_colors_length,
      constructed_sphere_positions_length]
    decide
  refine ⟨apply_colors_positions _ _ _ _ _, constructed_sphere_colors_length, h36, ?_⟩
  intro heq
  have h18 := constructed_sphere_colors_length
  rw [← Object3D.get_colors, ← heq, h36] at h18
  exact absurd h18 (by decide)

/-- C7 (amended). Colour generation is deterministic and appends: `apply_colors`
/ `apply_color` leaves the colour array as the earlier colour array followed
by a block of colours, and for two shapes with identical position data and
the same base colour that block is the same, whatever the shapes' earlier
colour arrays, quality arguments and OpenGL contexts are. -/
theorem C7_colour_pass_appends (s1 s2 : Sphere α) (c1 c2 : StandingCylinder α)
    (rgb : List α) (L1 D1 L2 D2 C1 S1 C2 S2 : Nat) (gl1 gl2 gl3 gl4 : GLContext α)
    (hs : s1.obj.get_positions = s2.obj.get_positions)
    (hc : c1.obj.get_positions = c2.obj.get_positions) :
    ∃ bs bc : List α,
      (s1.apply_colors rgb L1 D1 gl1).1.obj.get_colors = s1.obj.get_colors ++ bs
      ∧ (s2.apply_colors rgb L2 D2 gl2).1.obj.get_colors = s2.obj.get_colors ++ bs
      ∧ (c1.apply_color rgb C1 S1 gl3).1.obj.get_colors = c1.obj.get_colors ++ bc
      ∧ (c2.apply_color rgb C2 S2 gl4).1.obj.get_colors = c2.obj.get_colors ++ bc := by
  simp only [Object3D.get_positions, Object3D.get_colors] at *
  refine ⟨gradient_colors s1.obj.positions rgb (color_count s1.obj.positions.length),
    gradient_colors c1.obj.positions rgb (color_count c1.obj.positions.length), ?_, ?_, ?_, ?_⟩
  · rw [apply_colors_colors]
  · rw [apply_colors_colors, hs]
  · rw [apply_color_colors]
  · rw [apply_color_colors, hc]

/-- C7 (witness). The constructed sphere and cylinder, each against itself
after one more colour pass: the position data are identical, so both passes
append the same block. -/
theorem C7_colour_pass_appends_witness :
    ∃ bs bc : List FExpr,
      (constructed_sphere.1.apply_colors [0.5, 0.5, 0.5] 1 1
          constructed_sphere.2).1.obj.get_colors = constructed_sphere.1.obj.get_colors ++ bs
      ∧ ((constructed_sphere.1.apply_colors [0.5, 0.5, 0.5] 1 1
            constructed_sphere.2).1.apply_colors [0.5, 0.5, 0.5] 1 1 {}).1.obj.get_colors
          = (constructed_sphere.1.apply_colors [0.5, 0.5, 0.5] 1 1
              constructed_sphere.2).1.obj.get_colors ++ bs
      ∧ (constructed_cylinder.1.apply_color [0.5, 0.5, 0.5] 1 1
          constructed_cylinder.2).1.obj.get_colors = constructed_cylinder.1.obj.get_colors ++ bc
      ∧ ((constructed_cylinder.1.apply_color [0.5, 0.5, 0.5] 1 1
            constructed_cylinder.2).1.apply_color [0.5, 0.5, 0.5] 1 1 {}).1.obj.get_colors
          = (constructed_cylinder.1.apply_color [0.5, 0.5, 0.5] 1 1
              constructed_cylinder.2).1.obj.get_colors ++ bc :=
  C7_colour_pass_appends constructed_sphere.1
    (constructed_sphere.1.apply_colors [0.5, 0.5, 0.5] 1 1 constructed_sphere.2).1
    constructed_cylinder.1
    (constructed_cylinder.1.apply_color [0.5, 0.5, 0.5] 1 1 constructed_cylinder.2).1
    [0.5, 0.5, 0.5] 1 1 1 1 1 1 1 1 constructed_sphere.2 {} constructed_cylinder.2 {}
    (apply_colors_positions _ _ _ _ _).symm (apply_color_positions _ _ _ _ _).symm

end Repeat

/-! ## Exact real arithmetic -/

theorem gradientFactor_real (p : List ℝ) (i : Nat) :
    gradientFactor p i = euclid_distance p i / Real.sqrt 3 := by
  show Real.sqrt _ / Real.sqrt _ = _
  unfold euclid_distance
  congr 2
  · simp only [sq]
  · simp only [Vec3.splat]
    norm_num

theorem euclid_distance_unit : euclid_distance [1, 1, 1] 0 = Real.sqrt 3 := by
  unfold euclid_distance
  congr 1
  norm_num

/-- C6. In `Sphere::apply_colors` and `StandingCylinder::apply_color`, over
exact real arithmetic: the two methods write the same colours; the gradient
factor of a vertex is `d / |(1,1,1)|` with `d` the Euclidean distance of the
vertex from the origin, and channel `k` of the colour written for vertex `a`
equals `base_k * (1 - d / |(1,1,1)|)`, whatever the sign of the base channel;
hence the gradient factor is non-decreasing in `d`; and for a positive base
channel a vertex with a strictly larger gradient factor gets a strictly
smaller channel value. -/
theorem C6_gradient_colour (o : Object3D ℝ) (s : Sphere ℝ) (c : StandingCylinder ℝ)
    (rgb : List ℝ) (L D C S : Nat) (gl : GLContext ℝ) (a b k : Nat)
    (hs : s.obj = o) (hc : c.obj = o) (hrgb : 3 ≤ rgb.length) (hk : k < 3)
    (ha : a < color_count o.get_positions.length)
    (hb : b < color_count o.get_positions.length) :
    (c.apply_color rgb C S gl).1.obj.get_colors = (s.apply_colors rgb L D gl).1.obj.get_colors
    ∧ gradientFactor o.get_positions a
        = euclid_distance o.get_positions a / euclid_distance [1, 1, 1] 0
    ∧ (s.apply_colors rgb L D gl).1.obj.get_colors.getD (o.get_colors.length + (a * 3 + k)) 0
        = rgb.getD k 0
          * (1 - euclid_distance o.get_positions a / euclid_distance [1, 1, 1] 0)
    ∧ (euclid_distance o.get_positions a ≤ euclid_distance o.get_positions b →
        gradientFactor o.get_positions a ≤ gradientFactor o.get_positions b)
    ∧ (0 < rgb.getD k 0 →
        gradientFactor o.get_positions a < gradientFactor o.get_positions b →
        (s.apply_colors rgb L D gl).1.obj.get_colors.getD (o.get_colors.length + (b * 3 + k)) 0
          < (s.apply_colors rgb L D gl).1.obj.get_colors.getD
              (o.get_colors.length + (a * 3 + k)) 0) := by
  subst hs
  have _ := hrgb
  simp only [Object3D.get_positions, Object3D.get_colors] at *
  have hone : (1.0 : ℝ) = 1 := by norm_num
  have hget : ∀ i, i < color_count s.obj.positions.length →
      (s.apply_colors rgb L D gl).1.obj.colors.getD (s.obj.colors.length + (i * 3 + k)) 0
        = rgb.getD k 0 * (1 - gradientFactor s.obj.positions i) := by
    intro i hi
    rw [apply_colors_colors, List.getD_append_right _ _ _ _ (Nat.le_add_right _ _),
      Nat.add_sub_cancel_left, gradient_colors_getD _ _ _ _ _ hi hk, hone]
  have hsqrt3 : 0 < Real.sqrt 3 := Real.sqrt_pos.mpr (by norm_num)
  refine ⟨?_, ?_, ?_, ?_, ?_⟩
  · rw [apply_color_colors, apply_colors_colors, hc]
  · rw [gradientFactor_real, euclid_distance_unit]
  · rw [hget a ha, gradientFactor_real, euclid_distance_unit]
  · intro hd
    rw [gradientFactor_real, gradientFactor_real]
    exact div_le_div_of_nonneg_right hd hsqrt3.le
  · intro hbase hlt
    rw [hget a ha, hget b hb]
    exact mul_lt_mul_of_pos_left (by linarith) hbase

theorem sample_distance_zero : euclid_distance sample_object.get_positions 0 = 0 := by
  simp [euclid_distance, sample_object, Object3D.get_positions]

theorem sample_distance_one : euclid_distance sample_object.get_positions 1 = 5 := by
  have h : (3 : ℝ) ^ 2 + 4 ^ 2 = 5 ^ 2 := by norm_num
  simp [euclid_distance, sample_object, Object3D.get_positions, h]

theorem sample_gradient_lt :
    gradientFactor sample_object.get_positions 0
      < gradientFactor sample_object.get_positions 1 := by
  rw [gradientFactor_real, gradientFactor_real, sample_distance_zero, sample_distance_one,
    zero_div]
  exact div_pos (by norm_num) (Real.sqrt_pos.mpr (by norm_num))

/-- C6 (witness). On the two-vertex object with vertices `(0, 0, 0)` and
`(3, 4, 0)` and the base colour `{0.5, 0.5, 0.5}`, for the vertices `a = 0`,
`b = 1` and channel `k = 0`: the colour formula at vertex `0`, the ordering of
the two gradient factors, and the strictly smaller channel of the farther
vertex. -/
theorem C6_gradient_colour_witness :
    (sample_cylinder.apply_color [0.5, 0.5, 0.5] 1 1 {}).1.obj.get_colors
      = (sample_sphere.apply_colors [0.5, 0.5, 0.5] 1 1 {}).1.obj.get_colors
    ∧ gradientFactor sample_object.get_positions 0
        = euclid_distance sample_object.get_positions 0 / euclid_distance [1, 1, 1] 0
    ∧ (sample_sphere.apply_colors [0.5, 0.5, 0.5] 1 1 {}).1.obj.get_colors.getD
        (sample_object.get_colors.length + (0 * 3 + 0)) 0
        = ([0.5, 0.5, 0.5] : List ℝ).getD 0 0
          * (1 - euclid_distance sample_object.get_positions 0 / euclid_distance [1, 1, 1] 0)
    ∧ gradientFactor sample_object.get_positions 0 ≤ gradientFactor sample_object.get_positions 1
    ∧ (sample_sphere.apply_colors [0.5, 0.5, 0.5] 1 1 {}).1.obj.get_colors.getD
          (sample_object.get_colors.length + (1 * 3 + 0)) 0
        < (sample_sphere.apply_colors [0.5, 0.5, 0.5] 1 1 {}).1.obj.get_colors.getD
            (sample_object.get_colors.length + (0 * 3 + 0)) 0 :=
  have h := C6_gradient_colour sample_object sample_sphere sample_cylinder [0.5, 0.5, 0.5]
    1 1 1 1 {} 0 1 0 rfl rfl (by simp) (by decide) (by decide) (by decide)
  ⟨h.1, h.2.1, h.2.2.1,
    h.2.2.2.1 (by rw [sample_distance_zero, sample_distance_one]; norm_num),
    h.2.2.2.2 (by norm_num) sample_gradient_lt⟩

/-! ## Rotation -/

theorem normalize_unit (v : Vec3 ℝ) (hv : v ≠ ⟨0, 0, 0⟩) :
    v.normalize.x * v.normalize.x + v.normalize.y * v.normalize.y
      + v.normalize.z * v.normalize.z = 1 := by
  obtain ⟨a, b, c⟩ := v
  have hpos : 0 < a * a + b * b + c * c := by
    by_contra hneg
    have h0 : a * a + b * b + c * c = 0 :=
      le_antisymm (not_lt.mp hneg)
        (by nlinarith [mul_self_nonneg a, mul_self_nonneg b, mul_self_nonneg c])
    have ha : a = 0 := by nlinarith [mul_self_nonneg a, mul_self_nonneg b, mul_self_nonneg c]
    have hb : b = 0 := by nlinarith [mul_self_nonneg a, mul_self_nonneg b, mul_self_nonneg c]
    have hc : c = 0 := by nlinarith [mul_self_nonneg a, mul_self_nonneg b, mul_self_nonneg c]
    exact hv (by rw [ha, hb, hc])
  have hs : Real.sqrt (a * a + b * b + c * c) * Real.sqrt (a * a + b * b + c * c)
      = a * a + b * b + c * c := Real.mul_self_sqrt hpos.le
  have hs0 : Real.sqrt (a * a + b * b + c * c) ≠ 0 := (Real.sqrt_pos.mpr hpos).ne'
  show a * (1 / Real.sqrt (a * a + b * b + c * c)) * (a * (1 / Real.sqrt (a * a + b * b + c * c)))
      + b * (1 / Real.sqrt (a * a + b * b + c * c)) * (b * (1 / Real.sqrt (a * a + b * b + c * c)))
      + c * (1 / Real.sqrt (a * a + b * b + c * c)) * (c * (1 / Real.sqrt (a * a + b * b + c * c)))
      = 1
  field_simp

theorem cosf_real (x : ℝ) : cosf x = Real.cos x := rfl

theorem sinf_real (x : ℝ) : sinf x = Real.sin x := rfl

/-- Rotating the identity by `a` and then by `b` about the same non-zero
axis is rotating it by `a + b`. -/
theorem glm_rotate_add (v : Vec3 ℝ) (hv : v ≠ ⟨0, 0, 0⟩) (a b : ℝ) :
    glm_rotate (glm_rotate Mat4.identity a v) b v = glm_rotate Mat4.identity (a + b) v := by
  have hu := normalize_unit v hv
  unfold glm_rotate
  simp only [Vec4.scale, Vec4.add, Mat4.identity, Mat4.mk.injEq, Vec4.mk.injEq, cosf_real,
    sinf_real, Real.cos_add, Real.sin_add]
  generalize v.normalize = u at hu ⊢
  obtain ⟨ux, uy, uz⟩ := u
  simp only at hu ⊢
  refine ⟨⟨?_, ?_, ?_, ?_⟩, ⟨?_, ?_, ?_, ?_⟩, ⟨?_, ?_, ?_, ?_⟩, ?_⟩
  · linear_combination
      ((1 - Real.cos a) * (1 - Real.cos b) * ux * ux - Real.sin a * Real.sin b) * hu
  · linear_combination ((1 - Real.cos a) * (1 - Real.cos b) * ux * uy) * hu
  · linear_combination ((1 - Real.cos a) * (1 - Real.cos b) * ux * uz) * hu
  · ring
  · linear_combination ((1 - Real.cos a) * (1 - Real.cos b) * uy * ux) * hu
  · linear_combination
      ((1 - Real.cos a) * (1 - Real.cos b) * uy * uy - Real.sin a * Real.sin b) * hu
  · linear_combination ((1 - Real.cos a) * (1 - Real.cos b) * uy * uz) * hu
  · ring
  · linear_combination ((1 - Real.cos a) * (1 - Real.cos b) * uz * ux) * hu
  · linear_combination ((1 - Real.cos a) * (1 - Real.cos b) * uz * uy) * hu
  · linear_combination
      ((1 - Real.cos a) * (1 - Real.cos b) * uz * uz - Real.sin a * Real.sin b) * hu
  · ring
  · trivial

theorem glm_rotate_zero (v : Vec3 ℝ) : glm_rotate Mat4.identity 0 v = Mat4.identity := by
  unfold glm_rotate
  simp [Vec4.scale, Vec4.add, Mat4.identity, cosf_real, sinf_real]

theorem apply_rotation_times_pivot (shader n : Nat) (q : Rotatable ℝ) (gl : GLContext ℝ) :
    (Rotatable.apply_rotation_times shader n q gl).1.pivot = q.pivot := by
  induction n with
  | zero => rfl
  | succ k ih => exact ih

theorem apply_rotation_times_succ (shader n : Nat) (q : Rotatable ℝ) (gl : GLContext ℝ) :
    (Rotatable.apply_rotation_times shader (n + 1) q gl).1.transform
      = glm_rotate (Rotatable.apply_rotation_times shader n q gl).1.transform 0.001
          (Rotatable.apply_rotation_times shader n q gl).1.pivot := rfl

/-- C8. For every non-zero pivot and every `N`, over exact real arithmetic:
starting from a `Rotatable` whose transform is the identity (as created) and
calling `apply_rotation` `N` times without changing the pivot gives the
transform `glm::rotate(identity, N * 0.001, pivot)`, a single rotation of the
identity by the angle `N * 0.001` about that pivot. -/
theorem C8_rotation_accumulates (q : Rotatable ℝ) (shader : Nat) (gl : GLContext ℝ) (N : Nat)
    (hfresh : q.get_transform = Mat4.identity) (hpivot : q.get_pivot ≠ ⟨0, 0, 0⟩) :
    (Rotatable.apply_rotation_times shader N q gl).1.get_transform
      = glm_rotate Mat4.identity ((N : ℝ) * 0.001) q.get_pivot := by
  simp only [Rotatable.get_transform, Rotatable.get_pivot] at *
  induction N with
  | zero =>
    rw [Nat.cast_zero, zero_mul, glm_rotate_zero]
    exact hfresh
  | succ k ih =>
    rw [apply_rotation_times_succ, ih, apply_rotation_times_pivot, glm_rotate_add _ hpivot]
    congr 1
    push_cast
    ring

/-- C8 (witness). A default-constructed `Rotatable` (pivot `(0.3, 0.3, 0.3)`)
after three calls of `apply_rotation`. -/
theorem C8_rotation_accumulates_witness :
    (Rotatable.apply_rotation_times 1 3 (Rotatable.default : Rotatable ℝ) {}).1.get_transform
      = glm_rotate Mat4.identity (((3 : Nat) : ℝ) * 0.001)
          (Rotatable.default : Rotatable ℝ).get_pivot :=
  C8_rotation_accumulates Rotatable.default 1 {} 3 rfl
    (by simp only [Rotatable.get_pivot, Rotatable.default, ne_eq, Vec3.mk.injEq, and_self]
        norm_num)

/-! ## Rotation driven by the composition -/

section Entities

variable {α : Type}

theorem forall2_getElem? {β γ : Type} {R : β → γ → Prop} {l1 : List β} {l2 : List γ}
    (h : List.Forall₂ R l1 l2) (i : Nat) (a : β) (ha : l1[i]? = some a) :
    ∃ b, l2[i]? = some b ∧ R a b := by
  induction h generalizing i with
  | nil => simp at ha
  | cons hab _ ih =>
    cases i with
    | zero =>
      simp only [List.getElem?_cons_zero, Option.some.injEq] at ha
      subst ha
      exact ⟨_, by simp, hab⟩
    | succ j =>
      simp only [List.getElem?_cons_succ] at ha ⊢
      exact ih j ha

theorem forall2_chain {β : Type} {R S T : β → β → Prop}
    (hcomp : ∀ a b c, R a b → S b c → T a c) {l1 l2 l3 : List β}
    (h12 : List.Forall₂ R l1 l2) (h23 : List.Forall₂ S l2 l3) : List.Forall₂ T l1 l3 := by
  induction h12 generalizing l3 with
  | nil =>
    cases h23
    exact List.Forall₂.nil
  | cons hab _ ih =>
    cases h23 with
    | cons hbc hrest => exact List.Forall₂.cons (hcomp _ _ _ hab hbc) (ih hrest)

theorem with_rotatable_obj (f : Figure α) (q : Rotatable α) :
    (f.with_rotatable q).obj = f.obj := by
  cases f <;> rfl

theorem with_rotatable_of_none (f : Figure α) (q : Rotatable α)
    (h : f.as_rotatable = none) : f.with_rotatable q = f := by
  cases f with
  | sphere s => simp [Figure.as_rotatable] at h
  | cylinder c => simp [Figure.as_rotatable] at h
  | other o d => rfl

theorem with_rotatable_self (f : Figure α) (q : Rotatable α)
    (h : f.as_rotatable = some q) : f.with_rotatable q = f := by
  cases f <;> simp only [Figure.as_rotatable, Option.some.injEq] at h <;>
    first
      | (subst h; rfl)
      | exact absurd h (by simp)

theorem with_rotatable_twice (f : Figure α) (q q2 : Rotatable α) :
    (f.with_rotatable q).with_rotatable q2 = f.with_rotatable q2 := by
  cases f <;> rfl

end Entities

section Driver

variable {α : Type} [Zero α] [One α] [Add α] [Sub α] [Mul α] [Div α] [Neg α]
  [NatCast α] [IntCast α] [OfScientific α] [FloatMath α] [DecidableEq α]

theorem advanced_zero (f : Figure α) : Figure.advanced 0 f f :=
  ⟨rfl, fun _ => rfl, fun q hq => ⟨q, (with_rotatable_self f q hq).symm, rfl, rfl⟩⟩

/-- One `apply_rotation` on an entity that is `n` steps ahead puts it `n + 1`
steps ahead. -/
theorem advanced_apply (n shader : Nat) (gl : GLContext α) (f f1 : Figure α)
    (h : Figure.advanced n f f1) :
    Figure.advanced (n + 1) f
      (match f1.as_rotatable with
        | some r => f1.with_rotatable (r.apply_rotation shader gl).1
        | none => f1) := by
  obtain ⟨hobj, hnone, hsome⟩ := h
  cases hf : f.as_rotatable with
  | none =>
    have h1 : f1 = f := hnone hf
    subst h1
    rw [hf]
    exact ⟨rfl, fun _ => rfl, fun q hq => by rw [hf] at hq; exact absurd hq (by simp)⟩
  | some q =>
    obtain ⟨q2, hf1, hpivot, htransform⟩ := hsome q hf
    have has : f1.as_rotatable = some q2 := by
      rw [hf1]
      cases f <;> simp [Figure.as_rotatable, Figure.with_rotatable] at hf ⊢
    rw [has]
    show Figure.advanced _ f (f1.with_rotatable (q2.apply_rotation shader gl).1)
    refine ⟨?_, ?_, ?_⟩
    · rw [with_rotatable_obj, hobj]
    · intro hn
      rw [hf] at hn
      exact absurd hn (by simp)
    · intro q' hq'
      rw [hf] at hq'
      have hqq : q = q' := Option.some.inj hq'
      subst hqq
      refine ⟨(q2.apply_rotation shader gl).1, ?_, ?_, ?_⟩
      · rw [hf1, with_rotatable_twice]
      · exact hpivot
      · show glm_rotate q2.transform (0.001 : α) q2.pivot = _
        rw [htransform, hpivot]
        rfl

/-- One `init_rotation` on an entity that is `n` steps ahead leaves it `n`
steps ahead. -/
theorem advanced_init (n shader : Nat) (gl : GLContext α) (f f1 : Figure α)
    (h : Figure.advanced n f f1) :
    Figure.advanced n f
      (match f1.as_rotatable with
        | some r => f1.with_rotatable (r.init_rotation shader gl).1
        | none => f1) := by
  obtain ⟨hobj, hnone, hsome⟩ := h
  cases hf : f.as_rotatable with
  | none =>
    have h1 : f1 = f := hnone hf
    subst h1
    rw [hf]
    exact ⟨rfl, fun _ => rfl, fun q hq => by rw [hf] at hq; exact absurd hq (by simp)⟩
  | some q =>
    obtain ⟨q2, hf1, hpivot, htransform⟩ := hsome q hf
    have has : f1.as_rotatable = some q2 := by
      rw [hf1]
      cases f <;> simp [Figure.as_rotatable, Figure.with_rotatable] at hf ⊢
    rw [has]
    show Figure.advanced _ f (f1.with_rotatable (q2.init_rotation shader gl).1)
    refine ⟨?_, ?_, ?_⟩
    · rw [with_rotatable_obj, hobj]
    · intro hn
      rw [hf] at hn
      exact absurd hn (by simp)
    · intro q' hq'
      rw [hf] at hq'
      have hqq : q = q' := Option.some.inj hq'
      subst hqq
      refine ⟨(q2.init_rotation shader gl).1, ?_, ?_, ?_⟩
      · rw [hf1, with_rotatable_twice]
      · exact hpivot
      · exact htransform

theorem apply_rotation_loop_advanced (n shader : Nat) {fs0 fs : List (Figure α)}
    (h : List.Forall₂ (Figure.advanced n) fs0 fs) (gl : GLContext α) :
    List.Forall₂ (Figure.advanced (n + 1)) fs0
      (Composition.apply_rotation_loop shader fs gl).1 := by
  induction h generalizing gl with
  | nil => exact List.Forall₂.nil
  | @cons f f1 l l1 hff _ ih =>
    have hstep := advanced_apply n shader gl f f1 hff
    cases hr : f1.as_rotatable with
    | none =>
      rw [hr] at hstep
      simp only [Composition.apply_rotation_loop, hr]
      exact List.Forall₂.cons hstep (ih gl)
    | some r =>
      rw [hr] at hstep
      simp only [Composition.apply_rotation_loop, hr]
      exact List.Forall₂.cons hstep (ih _)

theorem init_rotation_loop_advanced (n shader : Nat) {fs0 fs : List (Figure α)}
    (h : List.Forall₂ (Figure.advanced n) fs0 fs) (gl : GLContext α) :
    List.Forall₂ (Figure.advanced n) fs0
      (Composition.init_rotation_loop shader fs gl).1 := by
  induction h generalizing gl with
  | nil => exact List.Forall₂.nil
  | @cons f f1 l l1 hff _ ih =>
    have hstep := advanced_init n shader gl f f1 hff
    cases hr : f1.as_rotatable with
    | none =>
      rw [hr] at hstep
      simp only [Composition.init_rotation_loop, hr]
      exact List.Forall₂.cons hstep (ih gl)
    | some r =>
      rw [hr] at hstep
      simp only [Composition.init_rotation_loop, hr]
      exact List.Forall₂.cons hstep (ih _)

theorem perform_advanced (calls : List RotationCall) (n : Nat) (fs0 : List (Figure α))
    (c : Composition α) (gl : GLContext α)
    (h : List.Forall₂ (Figure.advanced n) fs0 c.figures) :
    List.Forall₂ (Figure.advanced (n + RotationCall.applications calls)) fs0
      (Composition.perform calls c gl).1.figures := by
  induction calls generalizing n c gl with
  | nil => exact h
  | cons call rest ih =>
    cases call with
    | init_rotation shader =>
      have h1 := init_rotation_loop_advanced n shader h gl
      exact ih n (c.init_rotation shader gl).1 (c.init_rotation shader gl).2 h1
    | apply_rotation shader =>
      have h1 := apply_rotation_loop_advanced n shader h gl
      have h2 := ih (n + 1) (c.apply_rotation shader gl).1 (c.apply_rotation shader gl).2 h1
      have hn : n + 1 + RotationCall.applications rest
          = n + RotationCall.applications (RotationCall.apply_rotation shader :: rest) := by
        simp only [RotationCall.applications]
        omega
      rw [hn] at h2
      exact h2

theorem forall2_advanced_zero (fs : List (Figure α)) :
    List.Forall₂ (Figure.advanced 0) fs fs := by
  induction fs with
  | nil => exact List.Forall₂.nil
  | cons f t ih => exact List.Forall₂.cons (advanced_zero f) ih

/-- C9. For every composition and every sequence of `Composition::init_rotation`
and `Composition::apply_rotation` calls: the list of entities keeps its length,
and the entity at each index `i` afterwards is the entity that was at index `i`
before, with the same position, colour and normal arrays; an entity without the
rotation capability is unchanged altogether; a rotatable entity differs at most
in its `Rotatable` base, whose pivot is kept and whose transform has been
advanced by exactly one rotation step per `apply_rotation` call. -/
theorem C9_composition_rotation_frame (c : Composition α) (gl : GLContext α)
    (calls : List RotationCall) (i : Nat) (f : Figure α) (hf : c.figures[i]? = some f) :
    (Composition.perform calls c gl).1.figures.length = c.figures.length
    ∧ ∃ f2, (Composition.perform calls c gl).1.figures[i]? = some f2
      ∧ f2.obj.get_positions = f.obj.get_positions
      ∧ f2.obj.get_colors = f.obj.get_colors
      ∧ f2.obj.get_normals = f.obj.get_normals
      ∧ (f.as_rotatable = none → f2 = f)
      ∧ (∀ q, f.as_rotatable = some q →
          ∃ q2, f2 = f.with_rotatable q2 ∧ q2.get_pivot = q.get_pivot
            ∧ q2.get_transform
                = rotate_steps q.get_pivot (RotationCall.applications calls) q.get_transform) := by
  have hall := perform_advanced calls 0 c.figures c gl (forall2_advanced_zero c.figures)
  rw [Nat.zero_add] at hall
  refine ⟨hall.length_eq.symm, ?_⟩
  obtain ⟨f2, hf2, hobj, hnone, hsome⟩ := forall2_getElem? hall i f hf
  exact ⟨f2, hf2, congrArg Object3D.positions hobj, congrArg Object3D.colors hobj,
    congrArg Object3D.normals hobj, hnone, hsome⟩

/-- C9 (witness). The composition holding the constructed sphere and a
non-rotatable entity, after `init_rotation`, `apply_rotation`,
`apply_rotation`: the statement at index `0`, the sphere. -/
theorem C9_composition_rotation_frame_witness :
    (Composition.perform
        [RotationCall.init_rotation 1, RotationCall.apply_rotation 1,
          RotationCall.apply_rotation 1] sample_composition {}).1.figures.length
      = sample_composition.figures.length
    ∧ ∃ f2, (Composition.perform
        [RotationCall.init_rotation 1, RotationCall.apply_rotation 1,
          RotationCall.apply_rotation 1] sample_composition {}).1.figures[0]? = some f2
      ∧ f2.obj.get_positions = (Figure.sphere constructed_sphere.1).obj.get_positions
      ∧ f2.obj.get_colors = (Figure.sphere constructed_sphere.1).obj.get_colors
      ∧ f2.obj.get_normals = (Figure.sphere constructed_sphere.1).obj.get_normals
      ∧ ((Figure.sphere constructed_sphere.1).as_rotatable = none →
          f2 = Figure.sphere constructed_sphere.1)
      ∧ (∀ q, (Figure.sphere constructed_sphere.1).as_rotatable = some q →
          ∃ q2, f2 = (Figure.sphere constructed_sphere.1).with_rotatable q2
            ∧ q2.get_pivot = q.get_pivot
            ∧ q2.get_transform
                = rotate_steps q.get_pivot
                    (RotationCall.applications
                      [RotationCall.init_rotation 1, RotationCall.apply_rotation 1,
                        RotationCall.apply_rotation 1]) q.get_transform) :=
  C9_composition_rotation_frame sample_composition {}
    [RotationCall.init_rotation 1, RotationCall.apply_rotation 1,
      RotationCall.apply_rotation 1] 0 (Figure.sphere constructed_sphere.1) rfl

end Driver

/-! ## Drawing a composition -/

section Drawing

variable {α : Type}

theorem draw_calls_issue (gl : GLContext α) (c : GLCall α) :
    (gl.issue c).draw_calls = gl.draw_calls ++ (c.as_draw).toList := by
  simp only [GLContext.draw_calls, GLContext.issue, List.filterMap_append]
  cases h : c.as_draw <;> simp [List.filterMap, h]

theorem sphere_draw_calls (s : Sphere α) (shader : Nat) (gl : GLContext α) :
    (s.draw_shape shader gl).draw_calls
      = gl.draw_calls ++ [(GL_TRIANGLES, 0, toInt32 (s.obj.get_positions.length / 3))] := by
  simp [Sphere.draw_shape, draw_calls_issue, GLCall.as_draw]

theorem cylinder_draw_calls (s : StandingCylinder α) (shader : Nat) (gl : GLContext α) :
    (s.draw_shape shader gl).draw_calls
      = gl.draw_calls ++ [(GL_TRIANGLES, 0, toInt32 (s.obj.get_positions.length / 3))] := by
  simp [StandingCylinder.draw_shape, draw_calls_issue, GLCall.as_draw]

theorem draw_loop_calls (fs : List (Figure α)) (shader : Nat) (gl : GLContext α)
    (hshapes : ∀ f ∈ fs, (∃ s, f = Figure.sphere s) ∨ (∃ s, f = Figure.cylinder s)) :
    (fs.foldl (fun gl i => i.draw_shape shader gl) gl).draw_calls
      = gl.draw_calls
        ++ fs.map (fun f => (GL_TRIANGLES, 0, toInt32 (f.obj.get_positions.length / 3))) := by
  induction fs generalizing gl with
  | nil => simp
  | cons f t ih =>
    rw [List.foldl_cons, ih _ (fun g hg => hshapes g (List.mem_cons_of_mem _ hg))]
    rcases hshapes f (List.mem_cons_self _ _) with ⟨s, rfl⟩ | ⟨s, rfl⟩
    · simp [Figure.draw_shape, Figure.obj, sphere_draw_calls]
    · simp [Figure.draw_shape, Figure.obj, cylinder_draw_calls]

theorem init_vbo_draw_calls (o : Object3D α) (gl : GLContext α) :
    (o.init_vbo gl).2.draw_calls = gl.draw_calls := by
  simp [Object3D.init_vbo, GLContext.genBuffer, GLContext.issue, GLContext.draw_calls,
    GLCall.as_draw, List.filterMap_append]

theorem init_cbo_draw_calls (o : Object3D α) (gl : GLContext α) :
    (o.init_cbo gl).2.draw_calls = gl.draw_calls := by
  simp [Object3D.init_cbo, GLContext.genBuffer, GLContext.issue, GLContext.draw_calls,
    GLCall.as_draw, List.filterMap_append]

theorem init_nbo_from_draw_calls (o : Object3D α) (n : List α) (gl : GLContext α) :
    (o.init_nbo_from n gl).2.draw_calls = gl.draw_calls := by
  simp [Object3D.init_nbo_from, GLContext.genBuffer, GLContext.issue, GLContext.draw_calls,
    GLCall.as_draw, List.filterMap_append]

end Drawing

section DrawingClaims

variable {α : Type} [Zero α] [One α] [Add α] [Sub α] [Mul α] [Div α] [Neg α]
  [NatCast α] [IntCast α] [OfScientific α] [FloatMath α] [DecidableEq α]

theorem generate_sphere_draw_calls (s : Sphere α) (x y z r : α) (L D : Nat)
    (gl : GLContext α) :
    (s.generate_sphere x y z r L D gl).2.draw_calls = gl.draw_calls :=
  init_vbo_draw_calls _ gl

theorem apply_colors_draw_calls (s : Sphere α) (rgb : List α) (L D : Nat)
    (gl : GLContext α) :
    (s.apply_colors rgb L D gl).2.draw_calls = gl.draw_calls :=
  init_cbo_draw_calls _ gl

/-- Constructing a sphere issues no draw call. -/
theorem sphere_new_draw_calls (x y z r : α) (L D : Nat) (rgb normals : List α)
    (gl : GLContext α) :
    (Sphere.new x y z r L D rgb normals gl).2.draw_calls = gl.draw_calls := by
  unfold Sphere.new
  by_cases h1 : rgb = NULL_FLOAT_VECTOR <;> by_cases h2 : normals = NULL_FLOAT_VECTOR <;>
    simp [h1, h2, generate_sphere_draw_calls, apply_colors_draw_calls,
      init_nbo_from_draw_calls]

theorem toInt32_small (n : Nat) (h : n < 2 ^ 31) : toInt32 n = (n : Int) := by
  unfold toInt32
  have h1 : n % 2 ^ 32 = n := Nat.mod_eq_of_lt (by omega)
  rw [h1, if_pos h]

theorem single_sphere_shapes (s : Sphere α) :
    ∀ f ∈ (Composition.add ({} : Composition α) (Figure.sphere s)).figures,
      (∃ s, f = Figure.sphere s) ∨ (∃ s, f = Figure.cylinder s) := by
  intro f hf
  simp only [Composition.add, List.nil_append, List.mem_singleton] at hf
  exact Or.inl ⟨s, hf⟩

/-- The draw calls of `Composition::draw_composition` on a composition of
spheres and standing cylinders: one `glDrawArrays(GL_TRIANGLES, 0, count)` per
entity, in the order of the entity list, `count` being the entity's
`positions.size() / 3` as narrowed to `GLsizei`. -/
theorem draw_composition_calls (c : Composition α) (shader : Nat) (gl : GLContext α)
    (hshapes : ∀ f ∈ c.figures, (∃ s, f = Figure.sphere s) ∨ (∃ s, f = Figure.cylinder s)) :
    (c.draw_composition shader gl).draw_calls
      = gl.draw_calls
        ++ c.figures.map
            (fun f => (GL_TRIANGLES, 0, toInt32 (f.obj.get_positions.length / 3))) :=
  draw_loop_calls c.figures shader gl hshapes

/-- The draw call of a composition holding one constructed sphere. -/
theorem single_sphere_draw_calls (shader : Nat) (gl gl0 : GLContext α)
    (x y z r : α) (L D : Nat) (rgb normals : List α) :
    ((Composition.add {}
        (Figure.sphere (Sphere.new x y z r L D rgb normals gl0).1)).draw_composition
          shader gl).draw_calls
      = gl.draw_calls ++ [(GL_TRIANGLES, 0, toInt32 (L * D * 6))] := by
  rw [Composition.draw_composition, draw_loop_calls _ _ _ (single_sphere_shapes _)]
  simp only [Composition.add, List.nil_append, List.map_cons, List.map_nil, Figure.obj,
    Object3D.get_positions, sphere_position_count]
  rw [Nat.mul_div_cancel _ (by decide : 0 < 3)]

/-- Below `2^31` vertices the one draw call of a composition holding one
sphere of quality `L x D` covers `L * D * 6` vertices, whatever the colour
argument was. -/
theorem single_sphere_draw_in_range (shader : Nat) (gl gl0 : GLContext α)
    (x y z r : α) (L D : Nat) (rgb normals : List α) (hsmall : L * D * 6 < 2 ^ 31) :
    ((Composition.add {}
        (Figure.sphere (Sphere.new x y z r L D rgb normals gl0).1)).draw_composition
          shader gl).draw_calls
      = gl.draw_calls ++ [(GL_TRIANGLES, 0, ((L * D * 6 : Nat) : Int))] := by
  rw [single_sphere_draw_calls, toInt32_small _ hsmall]

/-- C10 (evaluation at the failing input). A composition holding one sphere
of quality `2 x 178956971` has `2 * 178956971 * 6 = 2147483652` vertices
(`positions.size() / 3`); `draw_composition` issues one
`glDrawArrays(GL_TRIANGLES, 0, count)` for it, and the `count` the call
receives is `-2147483644`, the vertex count narrowed to the 32-bit `GLsizei`:
the call does not cover the sphere's vertices. -/
theorem C10_draw_count_narrowed (shader : Nat) (gl gl0 : GLContext α) (x y z r : α)
    (rgb normals : List α) :
    (Sphere.new x y z r 2 178956971 rgb normals gl0).1.obj.get_positions.length / 3
        = 2147483652
    ∧ 2 * 178956971 * 6 = 2147483652
    ∧ ((Composition.add {}
          (Figure.sphere (Sphere.new x y z r 2 178956971 rgb normals gl0).1)).draw_composition
            shader gl).draw_calls
        = gl.draw_calls ++ [(GL_TRIANGLES, 0, -2147483644)] := by
  refine ⟨?_, rfl, ?_⟩
  · rw [Object3D.get_positions, sphere_position_count]
  · rw [single_sphere_draw_calls]
    have h : toInt32 (2 * 178956971 * 6) = -2147483644 := by decide
    rw [h]

end DrawingClaims

/-- The composition of `main` reduced to its first entity, the sphere of
radius `0.2` and quality `20 x 20` with base colour `{0.5, 0.5, 0.5}`, drawn
once in the context its construction leaves: exactly one draw call, covering
`20 * 20 * 6 = 2400` vertices; and the same for the sphere built with the
sentinel instead of a colour. -/
theorem main_sphere_draw_calls :
    ((Composition.add {}
        (Figure.sphere (Sphere.new (0 : FExpr) 0.5 0 0.2 20 20 [0.5, 0.5, 0.5]
          NULL_FLOAT_VECTOR {}).1)).draw_composition 1
        (Sphere.new (0 : FExpr) 0.5 0 0.2 20 20 [0.5, 0.5, 0.5]
          NULL_FLOAT_VECTOR {}).2).draw_calls
      = [(GL_TRIANGLES, 0, 2400)]
    ∧ ((Composition.add {}
        (Figure.sphere (Sphere.new (0 : FExpr) 0.5 0 0.2 20 20 NULL_FLOAT_VECTOR
          NULL_FLOAT_VECTOR {}).1)).draw_composition 1
        (Sphere.new (0 : FExpr) 0.5 0 0.2 20 20 NULL_FLOAT_VECTOR
          NULL_FLOAT_VECTOR {}).2).draw_calls
      = [(GL_TRIANGLES, 0, 2400)] := by
  have h1 := single_sphere_draw_in_range 1
    (Sphere.new (0 : FExpr) 0.5 0 0.2 20 20 [0.5, 0.5, 0.5] NULL_FLOAT_VECTOR {}).2 {}
    (0 : FExpr) 0.5 0 0.2 20 20 [0.5, 0.5, 0.5] NULL_FLOAT_VECTOR (by decide)
  have h2 := single_sphere_draw_in_range 1
    (Sphere.new (0 : FExpr) 0.5 0 0.2 20 20 NULL_FLOAT_VECTOR NULL_FLOAT_VECTOR {}).2 {}
    (0 : FExpr) 0.5 0 0.2 20 20 NULL_FLOAT_VECTOR NULL_FLOAT_VECTOR (by decide)
  rw [sphere_new_draw_calls] at h1 h2
  exact ⟨h1, h2⟩

/-! ## The shader source loader -/

theorem find_from_isSome (needle hay : List Char) (pos : Nat) :
    (find_from needle hay pos).isSome = true ↔ needle <:+: hay := by
  induction hay generalizing pos with
  | nil =>
    unfold find_from
    by_cases h : needle.isPrefixOf [] = true
    · rw [if_pos h]
      rw [List.isPrefixOf_iff_prefix, List.prefix_nil] at h
      simp [h]
    · rw [if_neg h]
      rw [List.isPrefixOf_iff_prefix, List.prefix_nil] at h
      simp [h]
  | cons c rest ih =>
    unfold find_from
    rw [List.infix_cons_iff]
    by_cases h : needle.isPrefixOf (c :: rest) = true
    · rw [if_pos h]
      rw [List.isPrefixOf_iff_prefix] at h
      simp [h]
    · rw [if_neg h, ih]
      rw [List.isPrefixOf_iff_prefix] at h
      simp [h]

theorem found_iff_occurs (line needle : String) :
    found line needle = true ↔ needle.data <:+: line.data :=
  find_from_isSome needle.data line.data 0

theorem section_in_force_cons (line : String) (before : List String) :
    section_in_force (line :: before)
      = match opened_section line with
        | some t => t
        | none => section_in_force before := by
  unfold section_in_force
  rw [List.findSome?_cons]
  cases opened_section line <;> rfl

/-- The loop invariant of `parseShader`: after the lines `rev` (given last
first) the variables hold the section in force and the two section sources. -/
theorem parseShader_loop (rev : List String) :
    rev.reverse.foldl parseShader_body { type := ShaderType.NONE, ss0 := "", ss1 := "" }
      = { type := section_in_force rev,
          ss0 := section_source ShaderType.VERTEX rev,
          ss1 := section_source ShaderType.FRAGMENT rev } := by
  induction rev with
  | nil => rfl
  | cons line before ih =>
    rw [List.reverse_cons, List.foldl_append, ih, List.foldl_cons, List.foldl_nil,
      section_in_force_cons]
    unfold parseShader_body opened_section
    simp only [section_source]
    cases hm : found line "#shader" <;> cases hv : found line "vertex" <;>
      cases hf : found line "fragment" <;> cases hs : section_in_force before <;>
      simp [ShaderType.toInt, String.append_assoc]

theorem parseShader_body_idle (line : String) (h : opened_section line = none) :
    parseShader_body { type := ShaderType.NONE, ss0 := "", ss1 := "" } line
      = { type := ShaderType.NONE, ss0 := "", ss1 := "" } := by
  unfold opened_section at h
  unfold parseShader_body
  cases hm : found line "#shader" <;> cases hv : found line "vertex" <;>
    cases hf : found line "fragment" <;> simp [hm, hv, hf] at h ⊢

theorem parseShader_loop_idle (pre : List String) (h : ∀ l ∈ pre, opened_section l = none) :
    pre.foldl parseShader_body { type := ShaderType.NONE, ss0 := "", ss1 := "" }
      = { type := ShaderType.NONE, ss0 := "", ss1 := "" } := by
  induction pre with
  | nil => rfl
  | cons l t ih =>
    rw [List.foldl_cons, parseShader_body_idle l (h l (List.mem_cons_self _ _))]
    exact ih (fun m hm => h m (List.mem_cons_of_mem _ hm))

/-- C11 (counterexample). Neither line of the input `" #shader vertex"`,
`"void main() {}"` begins with `#shader`, so with markers being the lines that
begin with the token both returned sources would be empty; `parseShader` takes
the first line for a marker (the token stands at offset 1) and returns the
second line as vertex source. -/
theorem C11_marker_inside_line :
    begins_with " #shader vertex" "#shader" = false
    ∧ begins_with "void main() {}" "#shader" = false
    ∧ std_find " #shader vertex" "#shader" = some 1
    ∧ parseShader [" #shader vertex", "void main() {}"]
        = { vertexShaderProgramInfo := "void main() {}\n", fragmentShaderProgramInfo := "" }
    ∧ (parseShader [" #shader vertex", "void main() {}"]).vertexShaderProgramInfo ≠ "" := by
  decide

/-- C11 (amended). For every sequence of input lines, `parseShader` treats a
line as a section marker exactly when the line contains the token `#shader`
(`find` succeeds exactly when the token occurs somewhere in the line); a marker
containing `fragment` opens the fragment section, a marker containing `vertex`
and not `fragment` opens the vertex section, and a marker containing neither
leaves the section in force as it is; the returned vertex (fragment) source is
the concatenation, in file order, of every non-marker line, each followed by
a newline, that stands where the vertex (fragment) section is in force; and
lines before the first line that opens a section go to neither. -/
theorem C11_parseShader_sections (pre lines : List String) (line token : String)
    (hpre : ∀ l ∈ pre, opened_section l = none) :
    (found line token = true ↔ token.data <:+: line.data)
    ∧ (parseShader lines).vertexShaderProgramInfo
        = section_source ShaderType.VERTEX lines.reverse
    ∧ (parseShader lines).fragmentShaderProgramInfo
        = section_source ShaderType.FRAGMENT lines.reverse
    ∧ parseShader (pre ++ lines) = parseShader lines := by
  have hloop := parseShader_loop lines.reverse
  rw [List.reverse_reverse] at hloop
  refine ⟨found_iff_occurs line token, ?_, ?_, ?_⟩
  · simp only [parseShader, hloop]
  · simp only [parseShader, hloop]
  · simp only [parseShader, List.foldl_append, parseShader_loop_idle pre hpre]

/-- C11 (witness). A file with a line of text before the first marker, a
vertex section and a fragment section. -/
theorem C11_parseShader_sections_witness :
    (found " #shader vertex" "#shader" = true
        ↔ ("#shader" : String).data <:+: (" #shader vertex" : String).data)
    ∧ (parseShader ["#shader vertex", "a", "#shader fragment", "b"]).vertexShaderProgramInfo
        = section_source ShaderType.VERTEX
            ["#shader vertex", "a", "#shader fragment", "b"].reverse
    ∧ (parseShader ["#shader vertex", "a", "#shader fragment", "b"]).fragmentShaderProgramInfo
        = section_source ShaderType.FRAGMENT
            ["#shader vertex", "a", "#shader fragment", "b"].reverse
    ∧ parseShader (["// pawn"] ++ ["#shader vertex", "a", "#shader fragment", "b"])
        = parseShader ["#shader vertex", "a", "#shader fragment", "b"] :=
  C11_parseShader_sections ["// pawn"] ["#shader vertex", "a", "#shader fragment", "b"]
    " #shader vertex" "#shader" (by decide)

/-! ## The fans of the cylinder -/

section Fans

variable {α : Type} [Zero α] [One α] [Add α] [Sub α] [Mul α] [Div α] [Neg α]
  [NatCast α] [IntCast α] [OfScientific α] [FloatMath α] [DecidableEq α]

theorem push_to_positions_positions (o : Object3D α) (p : α) :
    (o.push_to_positions p).positions = o.positions ++ [p] := rfl

theorem bottom_fan_body_positions (bx by_ bz r : α) (C i : Nat) (o : Object3D α) :
    (StandingCylinder.bottom_fan_body bx by_ bz r C i o).positions
      = o.positions ++ fan_triangle bx by_ bz r C i := by
  simp only [StandingCylinder.bottom_fan_body, push_to_positions_positions, fan_triangle,
    List.append_assoc, List.singleton_append, List.cons_append, List.nil_append]

theorem top_fan_body_positions (bx by_ bz r h : α) (C i : Nat) (o : Object3D α) :
    (StandingCylinder.top_fan_body bx by_ bz r h C i o).positions
      = o.positions ++ fan_triangle bx (by_ + h) bz r C i := by
  simp only [StandingCylinder.top_fan_body, push_to_positions_positions, fan_triangle,
    List.append_assoc, List.singleton_append, List.cons_append, List.nil_append]

theorem side_body_positions (bx by_ bz r h : α) (S i : Nat) (o : Object3D α) :
    ∃ t, (StandingCylinder.side_body bx by_ bz r h S i o).positions = o.positions ++ t := by
  simp only [StandingCylinder.side_body, push_to_positions_positions, List.append_assoc]
  exact ⟨_, rfl⟩

theorem bottom_fan_loop_positions (bx by_ bz r : α) (C n : Nat) (o : Object3D α) :
    ((List.range n).foldl
        (fun o i => StandingCylinder.bottom_fan_body bx by_ bz r C i o) o).positions
      = o.positions ++ fan_block bx by_ bz r C n := by
  induction n with
  | zero => simp [fan_block]
  | succ m ih =>
    rw [List.range_succ, List.foldl_append, List.foldl_cons, List.foldl_nil,
      bottom_fan_body_positions, ih, fan_block, List.append_assoc]

theorem top_fan_loop_positions (bx by_ bz r h : α) (C n : Nat) (o : Object3D α) :
    ((List.range n).foldl
        (fun o i => StandingCylinder.top_fan_body bx by_ bz r h C i o) o).positions
      = o.positions ++ fan_block bx (by_ + h) bz r C n := by
  induction n with
  | zero => simp [fan_block]
  | succ m ih =>
    rw [List.range_succ, List.foldl_append, List.foldl_cons, List.foldl_nil,
      top_fan_body_positions, ih, fan_block, List.append_assoc]

theorem side_loop_positions (bx by_ bz r h : α) (S n : Nat) (o : Object3D α) :
    ∃ t, ((List.range n).foldl
        (fun o i => StandingCylinder.side_body bx by_ bz r h S i o) o).positions
      = o.positions ++ t := by
  induction n with
  | zero => exact ⟨[], by simp⟩
  | succ m ih =>
    obtain ⟨t, ht⟩ := ih
    obtain ⟨u, hu⟩ := side_body_positions bx by_ bz r h S m
      ((List.range m).foldl (fun o i => StandingCylinder.side_body bx by_ bz r h S i o) o)
    refine ⟨t ++ u, ?_⟩
    rw [List.range_succ, List.foldl_append, List.foldl_cons, List.foldl_nil, hu, ht,
      List.append_assoc]

/-- The position array of a constructed cylinder: the bottom fan, the top
fan, then the side wall. -/
theorem cylinder_new_layout (x y z r h : α) (C S : Nat) (rgb normals : List α)
    (gl : GLContext α) :
    ∃ side, (StandingCylinder.new x y z r h C S rgb normals gl).1.obj.positions
      = fan_block x y z r C C ++ (fan_block x (y + h) z r C C ++ side) := by
  rw [cylinder_new_positions, cylinder_loops]
  obtain ⟨t, ht⟩ := side_loop_positions x y z r h S S
    ((List.range C).foldl (fun o i => StandingCylinder.top_fan_body x y z r h C i o)
      ((List.range C).foldl (fun o i => StandingCylinder.bottom_fan_body x y z r C i o) {}))
  refine ⟨t, ?_⟩
  rw [ht, top_fan_loop_positions, bottom_fan_loop_positions]
  simp only [Object3D.positions, List.nil_append, List.append_assoc]

theorem fan_triangle_length (bx y bz r : α) (C i : Nat) :
    (fan_triangle bx y bz r C i).length = 9 := rfl

theorem fan_block_length (bx y bz r : α) (C n : Nat) :
    (fan_block bx y bz r C n).length = n * 9 := by
  induction n with
  | zero => rfl
  | succ m ih =>
    rw [fan_block, List.length_append, ih, fan_triangle_length]
    ring

/-- Float `c` of the triangle for counter value `i` stands at index
`i * 9 + c` of the block. -/
theorem fan_block_getElem? (bx y bz r : α) (C n i c : Nat) (hi : i < n) (hc : c < 9) :
    (fan_block bx y bz r C n)[i * 9 + c]? = (fan_triangle bx y bz r C i)[c]? := by
  induction n with
  | zero => omega
  | succ m ih =>
    rw [fan_block]
    by_cases him : i < m
    · rw [List.getElem?_append_left (by rw [fan_block_length]; omega)]
      exact ih him
    · have hi' : i = m := by omega
      subst hi'
      rw [List.getElem?_append_right (by rw [fan_block_length]; omega), fan_block_length]
      congr 1
      omega

/-- The three vertices of a fan triangle: `x` and `z` do not depend on the
height, `y` is the height, and the third vertex is the centre. -/
theorem fan_triangle_vertices (bx bz r : α) (C i j : Nat) (hj : j < 3) :
    ∃ vx vz : α, ∀ y : α,
      (fan_triangle bx y bz r C i)[j * 3]? = some vx
      ∧ (fan_triangle bx y bz r C i)[j * 3 + 1]? = some y
      ∧ (fan_triangle bx y bz r C i)[j * 3 + 2]? = some vz
      ∧ (j = 2 → vx = bx ∧ vz = bz) := by
  interval_cases j
  · exact ⟨_, _, fun y => ⟨rfl, rfl, rfl, fun h => absurd h (by decide)⟩⟩
  · exact ⟨_, _, fun y => ⟨rfl, rfl, rfl, fun h => absurd h (by decide)⟩⟩
  · exact ⟨_, _, fun y => ⟨rfl, rfl, rfl, fun _ => ⟨rfl, rfl⟩⟩⟩

/-- Vertex `k` of a fan block, read at float offset `e` of the vertex, is a
float of the triangle `k / 3`. -/
theorem fan_block_vertex (bx y bz r : α) (C k e : Nat) (hk : k < C * 3) (he : e < 3) :
    (fan_block bx y bz r C C)[k * 3 + e]?
      = (fan_triangle bx y bz r C (k / 3))[k % 3 * 3 + e]? := by
  have h1 : k * 3 + e = k / 3 * 9 + (k % 3 * 3 + e) := by omega
  rw [h1]
  exact fan_block_getElem? bx y bz r C C (k / 3) (k % 3 * 3 + e) (by omega) (by omega)

/-- C12. For every constructed `StandingCylinder` with circle quality `C` and
every `k < C * 3`: vertex `k` of the second block of `C` triangles (the top
fan, which starts at float `C * 9`) has the same `x` and `z` as vertex `k` of
the first block (the bottom fan); the `y` of the first block's vertex is the
base `y` and the `y` of the second block's vertex is base `y + h`; and the
third vertex of every fan triangle (`k % 3 = 2`) has the `x` and `z` of the fan
centre. -/
theorem C12_top_fan_is_offset_bottom_fan (x y z r h : α) (C S : Nat) (rgb normals : List α)
    (gl : GLContext α) (k : Nat) (hk : k < C * 3) :
    ∃ vx vz : α,
      (StandingCylinder.new x y z r h C S rgb normals gl).1.obj.get_positions[k * 3]? = some vx
      ∧ (StandingCylinder.new x y z r h C S rgb normals gl).1.obj.get_positions[k * 3 + 1]?
          = some y
      ∧ (StandingCylinder.new x y z r h C S rgb normals gl).1.obj.get_positions[k * 3 + 2]?
          = some vz
      ∧ (StandingCylinder.new x y z r h C S rgb normals gl).1.obj.get_positions[C * 9 + k * 3]?
          = some vx
      ∧ (StandingCylinder.new x y z r h C S rgb normals
            gl).1.obj.get_positions[C * 9 + (k * 3 + 1)]? = some (y + h)
      ∧ (StandingCylinder.new x y z r h C S rgb normals
            gl).1.obj.get_positions[C * 9 + (k * 3 + 2)]? = some vz
      ∧ (k % 3 = 2 → vx = x ∧ vz = z) := by
  obtain ⟨side, hlayout⟩ := cylinder_new_layout x y z r h C S rgb normals gl
  obtain ⟨vx, vz, hv⟩ := fan_triangle_vertices x z r C (k / 3) (k % 3) (Nat.mod_lt _ (by decide))
  have hbottom : ∀ e, e < 3 →
      (StandingCylinder.new x y z r h C S rgb normals gl).1.obj.get_positions[k * 3 + e]?
        = (fan_triangle x y z r C (k / 3))[k % 3 * 3 + e]? := by
    intro e he
    rw [Object3D.get_positions, hlayout,
      List.getElem?_append_left (by rw [fan_block_length]; omega)]
    exact fan_block_vertex x y z r C k e hk he
  have htop : ∀ e, e < 3 →
      (StandingCylinder.new x y z r h C S rgb normals gl).1.obj.get_positions[C * 9
          + (k * 3 + e)]?
        = (fan_triangle x (y + h) z r C (k / 3))[k % 3 * 3 + e]? := by
    intro e he
    rw [Object3D.get_positions, hlayout,
      List.getElem?_append_right (by rw [fan_block_length]; omega), fan_block_length,
      Nat.add_sub_cancel_left,
      List.getElem?_append_left (by rw [fan_block_length]; omega)]
    exact fan_block_vertex x (y + h) z r C k e hk he
  refine ⟨vx, vz, ?_, ?_, ?_, ?_, ?_, ?_, (hv y).2.2.2⟩
  · rw [← Nat.add_zero (k * 3), hbottom 0 (by decide)]; exact (hv y).1
  · rw [hbottom 1 (by decide)]; exact (hv y).2.1
  · rw [hbottom 2 (by decide)]; exact (hv y).2.2.1
  · rw [← Nat.add_zero (k * 3), htop 0 (by decide)]; exact (hv (y + h)).1
  · rw [htop 1 (by decide)]; exact (hv (y + h)).2.1
  · rw [htop 2 (by decide)]; exact (hv (y + h)).2.2.1

end Fans

/-- C12 (witness). The cylinder `new StandingCylinder(0, 0, 0, 1, 1, 1, 1,
{0.5, 0.5, 0.5}, NULL_FLOAT_VECTOR)` over symbolic scalars, at `k = 2`, the
centre vertex of its one fan triangle. -/
theorem C12_top_fan_is_offset_bottom_fan_witness :
    ∃ vx vz : FExpr,
      (StandingCylinder.new (0 : FExpr) 0 0 1 1 1 1 [0.5, 0.5, 0.5] NULL_FLOAT_VECTOR
          {}).1.obj.get_positions[2 * 3]? = some vx
      ∧ (StandingCylinder.new (0 : FExpr) 0 0 1 1 1 1 [0.5, 0.5, 0.5] NULL_FLOAT_VECTOR
          {}).1.obj.get_positions[2 * 3 + 1]? = some 0
      ∧ (StandingCylinder.new (0 : FExpr) 0 0 1 1 1 1 [0.5, 0.5, 0.5] NULL_FLOAT_VECTOR
          {}).1.obj.get_positions[2 * 3 + 2]? = some vz
      ∧ (StandingCylinder.new (0 : FExpr) 0 0 1 1 1 1 [0.5, 0.5, 0.5] NULL_FLOAT_VECTOR
          {}).1.obj.get_positions[1 * 9 + 2 * 3]? = some vx
      ∧ (StandingCylinder.new (0 : FExpr) 0 0 1 1 1 1 [0.5, 0.5, 0.5] NULL_FLOAT_VECTOR
          {}).1.obj.get_positions[1 * 9 + (2 * 3 + 1)]? = some (0 + 1)
      ∧ (StandingCylinder.new (0 : FExpr) 0 0 1 1 1 1 [0.5, 0.5, 0.5] NULL_FLOAT_VECTOR
          {}).1.obj.get_positions[1 * 9 + (2 * 3 + 2)]? = some vz
      ∧ (2 % 3 = 2 → vx = 0 ∧ vz = 0) :=
  C12_top_fan_is_offset_bottom_fan (0 : FExpr) 0 0 1 1 1 1 [0.5, 0.5, 0.5] NULL_FLOAT_VECTOR
    {} 2 (by decide)

end Pawn
